import Mathlib

/-!
Verification development for the blob-detection core of the BaSiCs
repository (`basics/log.py`).

The Python module works on "blob" rows: 5-field float records
`(y, x, semi_major, semi_minor, position_angle)` (indices 0..4), with an
optional trailing shell-fraction quality scalar (index 5) and channel
index (index 6) in pruning-with-quality mode.  We embed the rows as
structures over `ℝ` and translate each function of `log.py` definition by
definition.  Floating-point numbers are modelled by real numbers; the
places where IEEE semantics leak into a value (division by zero producing
`±inf`, and `0.0/0.0` producing NaN, inside `merge_to_ellipse`'s
`arctan`) are modelled explicitly by case splits and documented at the
definition.

The helper `dist_uppertri` lives in `basics/utils.py`, which is not part
of the sources; its pair-enumeration behaviour is modelled from the spec
(sections 3 and 4.4): the condensed pairwise array is laid out as an
upper-triangular matrix, so `np.where` on it lists exactly the pairs
`(i, j)` with `i < j`, in lexicographic (row-major) order.
-/

open Real

/-- A 5-field detection row `(y, x, semi_major, semi_minor, pa)`;
indices 0..4 of the numpy rows handled by `log.py`. -/
structure Blob where
  y : ℝ
  x : ℝ
  major : ℝ
  minor : ℝ
  pa : ℝ


instance : Inhabited Blob := ⟨⟨0, 0, 0, 0, 0⟩⟩

/-- A 7-field detection row used in pruning-with-quality mode: the five
geometric fields, then the shell-fraction quality scalar (index 5) and a
channel index (index 6) appended by the caller. -/
structure QBlob where
  y : ℝ
  x : ℝ
  major : ℝ
  minor : ℝ
  pa : ℝ
  shell : ℝ
  chan : ℝ


instance : Inhabited QBlob := ⟨⟨0, 0, 0, 0, 0, 0, 0⟩⟩

/-- The five geometric fields of a 7-field row: `blobs_array[:, 0:-2]`,
the slice handed to the overlap metric when `use_shell_fraction` is set. -/
def QBlob.geom (q : QBlob) : Blob := ⟨q.y, q.x, q.major, q.minor, q.pa⟩

/-- `math.hypot` from the Python standard library. -/
noncomputable def hypot (a b : ℝ) : ℝ := Real.sqrt (a ^ 2 + b ^ 2)

/-- `np.clip(v, lo, hi)`. -/
noncomputable def clip (v lo hi : ℝ) : ℝ := max lo (min v hi)

/-- Distance between the centres of two blobs, as computed by
`hypot(blob1[0] - blob2[0], blob1[1] - blob2[1])` in the source. -/
noncomputable def blobDist (blob1 blob2 : Blob) : ℝ :=
  hypot (blob1.y - blob2.y) (blob1.x - blob2.x)

/-- `_blob_overlap` (log.py lines 54-105): overlap-area fraction of two
circular blobs, read off fields 0, 1, 2 of the rows.  The source rebinds
the name `d` to `d + r2 + r1` on line 102; we call the rebound value `dd`. -/
noncomputable def blob_overlap (blob1 blob2 : Blob) : ℝ :=
  let r1 := blob1.major
  let r2 := blob2.major
  let d := blobDist blob1 blob2
  if d > r1 + r2 then 0
  else if d = r1 + r2 then 1e-5
  else if d ≤ |r1 - r2| then 1
  else
    let ratio1 := clip ((d ^ 2 + r1 ^ 2 - r2 ^ 2) / (2 * d * r1)) (-1) 1
    let acos1 := Real.arccos ratio1
    let ratio2 := clip ((d ^ 2 + r2 ^ 2 - r1 ^ 2) / (2 * d * r2)) (-1) 1
    let acos2 := Real.arccos ratio2
    let a := -d + r2 + r1
    let b := d - r2 + r1
    let c := d + r2 - r1
    let dd := d + r2 + r1
    let area := r1 ^ 2 * acos1 + r2 ^ 2 * acos2 - 0.5 * Real.sqrt |a * b * c * dd|
    area / (Real.pi * (min r1 r2) ^ 2)

/-- `_min_merge_overlap` (log.py lines 477-489). -/
noncomputable def min_merge_overlap (min_dist : ℝ) : ℝ :=
  2 * Real.arccos (min_dist / 2) / Real.pi
    - Real.sqrt ((2 - min_dist) * (2 + min_dist)) / (2 * Real.pi)

/-- `merge_to_ellipse` (log.py lines 383-409).  The position angle is
`np.arctan((y1 - y2) / (x1 - x2))`, bumped by `π` when negative.  Two
IEEE artefacts at `x1 = x2` are modelled by explicit case splits.  When
`y1 ≠ y2` the Python quotient is `±inf` and `np.arctan(±inf) = ±π/2`,
which the bump normalises to `π/2` in both cases, so the model returns
`π/2`.  When also `y1 = y2` (exactly coincident centres) the quotient
is `0.0/0.0 = NaN`, `np.arctan(NaN) = NaN`, the `pa < 0` test on NaN is
false, and the merged row's position angle is NaN - a value with no
counterpart in `ℝ`.  The model returns the placeholder `π` there,
chosen deliberately outside the normalised range `[0, π)` to mirror the
fact that NaN falls outside that range (see
`merge_to_ellipse_pa_of_coincident`); every theorem below that speaks
about the position angle assumes the two centres are distinct, so the
placeholder is never relied upon. -/
noncomputable def merge_to_ellipse (blob1 blob2 : Blob) : Blob :=
  let d := blobDist blob1 blob2
  let pa0 :=
    if blob1.x = blob2.x then
      (if blob1.y = blob2.y then Real.pi else Real.pi / 2)
    else Real.arctan ((blob1.y - blob2.y) / (blob1.x - blob2.x))
  let pa := if pa0 < 0 then pa0 + Real.pi else pa0
  ⟨(blob1.y + blob2.y) / 2, (blob1.x + blob2.x) / 2,
    blob1.major + d / 2, blob1.major, pa⟩

/-- Membership test of astropy's `Ellipse2D.evaluate` (an external
library dependency of `_pixel_overlap`): the point `(x, y)` lies inside
the rotated ellipse centred at `(x0, y0)` with semi-axes `a`, `b` and
position angle `theta`. -/
noncomputable def ellipseMem (x0 y0 a b theta x y : ℝ) : Prop :=
  (((x - x0) * Real.cos theta + (y - y0) * Real.sin theta) / a) ^ 2
    + ((-(x - x0) * Real.sin theta + (y - y0) * Real.cos theta) / b) ^ 2 ≤ 1

/-- Bounding box of astropy's `Ellipse2D`: `((y_lo, y_hi), (x_lo, x_hi))`. -/
noncomputable def boundingBox (x0 y0 a b theta : ℝ) : (ℝ × ℝ) × (ℝ × ℝ) :=
  let dx := Real.sqrt ((a * Real.cos theta) ^ 2 + (b * Real.sin theta) ^ 2)
  let dy := Real.sqrt ((a * Real.sin theta) ^ 2 + (b * Real.cos theta) ^ 2)
  ((y0 - dy, y0 + dy), (x0 - dx, x0 + dx))

/-- `np.arange(start, stop, step)` for a positive step: the values
`start + k * step` for `k < ⌈(stop - start) / step⌉`. -/
noncomputable def arange (start stop step : ℝ) : List ℝ :=
  (List.range ⌈(stop - start) / step⌉₊).map fun k => start + k * step

open Classical in
/-- `_pixel_overlap` (log.py lines 412-474): grid-sampled overlap
fraction of two general ellipses.  The blob with the larger `major`
field is taken as the reference frame; bounding boxes gate a cheap
disjointness rejection; otherwise both ellipses are rasterised on a
shared grid and the intersection count is divided by the smaller (or,
on request, larger) ellipse's own count.  Counting over the real-valued
grid is modelled with `List.countP` over the meshgrid point list. -/
noncomputable def pixel_overlap (blob1 blob2 : Blob) (grid_space : ℝ)
    (return_large_overlap : Bool) : ℝ :=
  let large := if blob1.major > blob2.major then blob1 else blob2
  let small := if blob1.major > blob2.major then blob2 else blob1
  let bound1 := boundingBox 0 0 large.major large.minor large.pa
  let bound2 := boundingBox (small.x - large.x) (small.y - large.y)
    small.major small.minor small.pa
  if bound1.1.2 < bound2.1.1 ∧ bound1.2.2 < bound2.2.1 then 0
  else
    let ybounds := (min bound1.1.1 bound2.1.1, max bound1.1.2 bound2.1.2)
    let xbounds := (min bound1.2.1 bound2.2.1, max bound1.2.2 bound2.2.2)
    let ys := arange (ybounds.1 - grid_space) (ybounds.2 + grid_space) grid_space
    let xs := arange (xbounds.1 - grid_space) (xbounds.2 + grid_space) grid_space
    let pts := ys.flatMap fun yv => xs.map fun xv => (yv, xv)
    let in1 := fun p : ℝ × ℝ =>
      ellipseMem 0 0 large.major large.minor large.pa p.2 p.1
    let in2 := fun p : ℝ × ℝ =>
      ellipseMem (small.x - large.x) (small.y - large.y)
        small.major small.minor small.pa p.2 p.1
    let overlap_area := pts.countP fun p => decide (in1 p ∧ in2 p)
    let ellip1_area := pts.countP fun p => decide (in1 p)
    let ellip2_area := pts.countP fun p => decide (in2 p)
    if ellip1_area > ellip2_area then
      if return_large_overlap then (overlap_area : ℝ) / (ellip1_area : ℝ)
      else (overlap_area : ℝ) / (ellip2_area : ℝ)
    else
      if return_large_overlap then (overlap_area : ℝ) / (ellip2_area : ℝ)
      else (overlap_area : ℝ) / (ellip1_area : ℝ)

/-- `overlap_metric` (log.py lines 492-509): dispatch between the
pixel-sampled ellipse kernel and the closed-form circle kernel, mapping
the circle kernel's just-touching epsilon back to 0.  `_pixel_overlap`
is called with its default arguments `grid_space=0.2`,
`return_large_overlap=False`. -/
noncomputable def overlap_metric (ellip1 ellip2 : Blob) : ℝ :=
  if ellip1.major ≠ ellip1.minor ∨ ellip2.major ≠ ellip2.minor then
    pixel_overlap ellip1 ellip2 (1 / 5) false
  else
    let bo := blob_overlap ellip1 ellip2
    if bo = 1e-5 then 0 else bo

/-- All index pairs `(i, j)` with `i < j < n`, in lexicographic order.
Modelled from the spec: `dist_uppertri` (in `basics/utils.py`, absent
from the sources) lays the condensed `pdist` array out as an
upper-triangular square matrix, so `np.where` over a predicate on it
yields exactly these pairs, in row-major order. -/
def upperPairs (n : ℕ) : List (ℕ × ℕ) :=
  (List.range n).flatMap fun i =>
    (List.range (n - i - 1)).map fun k => (i, i + k + 1)

open Classical in
/-- The pairs `np.where(dist_arr >= overlap)` enumerated by
`_prune_blobs` (log.py line 138), in plain (`use_shell_fraction=False`)
mode, where the metric is applied to the full 5-field rows. -/
noncomputable def over_pairs (overlap : ℝ) (bs : List Blob) : List (ℕ × ℕ) :=
  (upperPairs bs.length).filter fun ij =>
    decide (overlap ≤ overlap_metric (bs.getD ij.1 default) (bs.getD ij.2 default))

open Classical in
/-- The index appended to `remove_blobs` for one over-threshold pair in
plain mode (log.py lines 153-158): `posn2` when `blob1[2] > blob2[2]`,
else `posn1`. -/
noncomputable def markOf (bs : List Blob) (ij : ℕ × ℕ) : ℕ :=
  if (bs.getD ij.1 default).major > (bs.getD ij.2 default).major then ij.2 else ij.1

/-- The full `remove_blobs` list accumulated by `_prune_blobs` in plain
mode (duplicates are harmless: `np.delete` treats the list as a set). -/
noncomputable def remove_list (overlap : ℝ) (bs : List Blob) : List ℕ :=
  (over_pairs overlap bs).map (markOf bs)

open Classical in
/-- `_prune_blobs` (log.py lines 108-165) with `use_shell_fraction=False`:
delete the rows whose index was marked, keeping the survivors in their
original order (`np.delete(blobs_array, remove_blobs, axis=0)`). -/
noncomputable def prune_blobs (overlap : ℝ) (bs : List Blob) : List Blob :=
  ((List.range bs.length).filter fun k =>
    decide (k ∉ remove_list overlap bs)).map fun k => bs.getD k default

open Classical in
/-- The over-threshold pairs enumerated by `_prune_blobs` when
`use_shell_fraction=True`: the metric sees only the geometric slice
`blobs_array[:, 0:-2]` of the 7-field rows. -/
noncomputable def over_pairs_shell (overlap : ℝ) (bs : List QBlob) : List (ℕ × ℕ) :=
  (upperPairs bs.length).filter fun ij =>
    decide (overlap ≤ overlap_metric (bs.getD ij.1 default).geom (bs.getD ij.2 default).geom)

open Classical in
/-- `_prune_blobs` with `use_shell_fraction=True` (log.py lines 145-151).
The branch computes `shell_cond = blob1[5] > blob2[5]` and then tests
`if cond:` - but `cond` is never assigned on this path, so the very
first over-threshold pair raises `NameError`.  With no over-threshold
pair the loop body never runs and the array is returned unchanged. -/
noncomputable def prune_blobs_shell (overlap : ℝ) (bs : List QBlob) :
    Except String (List QBlob) :=
  if (over_pairs_shell overlap bs).isEmpty then .ok bs
  else .error ("NameError: name cond is not defined")

open Classical in
/-- The merge-eligible pairs of `_merge_blobs` (log.py lines 197-198):
`min_merge_overlap < dist_arr <= 1.0`, enumerated before the loop from
the unmutated input array. -/
noncomputable def band_pairs (min_distance_merge : ℝ) (bs : List Blob) :
    List (ℕ × ℕ) :=
  (upperPairs bs.length).filter fun ij =>
    decide (min_merge_overlap min_distance_merge
        < overlap_metric (bs.getD ij.1 default) (bs.getD ij.2 default)
      ∧ overlap_metric (bs.getD ij.1 default) (bs.getD ij.2 default) ≤ 1)

open Classical in
/-- One iteration of the `_merge_blobs` loop (log.py lines 200-217),
acting on the state (current array, merged rows so far).  The rows are
read from the current, possibly already sentinel-marked array; a merge
appends `merge_to_ellipse blob1 blob2` and overwrites fields 2 and 3 of
both rows with the sentinel -1. -/
noncomputable def mergeStep (st : List Blob × List Blob) (ij : ℕ × ℕ) :
    List Blob × List Blob :=
  let blob1 := st.1.getD ij.1 default
  let blob2 := st.1.getD ij.2 default
  let is_ellipse := blob1.major ≠ blob1.minor ∨ blob2.major ≠ blob2.minor
  if blob1.major = blob2.major ∧ ¬is_ellipse then
    ((st.1.set ij.1 ⟨blob1.y, blob1.x, -1, -1, blob1.pa⟩).set ij.2
        ⟨blob2.y, blob2.x, -1, -1, blob2.pa⟩,
      st.2 ++ [merge_to_ellipse blob1 blob2])
  else st

open Classical in
/-- `_merge_blobs` (log.py lines 168-223).  After the loop the source
compacts with `np.array([b for b in blobs_array if b[2] > 0])` and
stacks the merged rows on with `np.vstack`.  When the comprehension is
empty, `np.array([])` has shape `(0,)`, and `np.vstack` of that with the
`(k, 5)` merged array raises `ValueError` (dimension mismatch); the
`Except` error models that failure. -/
noncomputable def merge_blobs (min_distance_merge : ℝ) (bs : List Blob) :
    Except String (List Blob) :=
  let st := (band_pairs min_distance_merge bs).foldl mergeStep (bs, [])
  let survivors := st.1.filter fun b => decide (0 < b.major)
  if survivors.isEmpty then
    .error ("ValueError: all the input array dimensions must match exactly")
  else .ok (survivors ++ st.2)

/-- The conversion of integer scale-space maxima `(y, x, scale_index)`
to 5-field blob rows (log.py lines 360-367): the scale index is replaced
by `sigma_list[index] * sqrt(2)`, the semi-minor axis is a copy of the
semi-major one, and the position angle is 0. -/
noncomputable def maxima_to_blobs (sigma_list : List ℝ)
    (maxima : List (ℕ × ℕ × ℕ)) : List Blob :=
  maxima.map fun m =>
    let r := sigma_list.getD m.2.2 0 * Real.sqrt 2
    ⟨(m.1 : ℝ), (m.2.1 : ℝ), r, r, 0⟩

/-- The tail of `blob_log` (log.py lines 360-380), parametrised by the
list of scale-space maxima and the already-computed response stack
`image_cube` (of abstract type, returned unchanged): convert maxima to
rows, short-circuit on an empty list, merge, then prune. -/
noncomputable def blob_log_post {α : Type} (sigma_list : List ℝ)
    (overlap merge_overlap_dist : ℝ) (maxima : List (ℕ × ℕ × ℕ))
    (image_cube : α) : Except String (List Blob × α) :=
  let lm := maxima_to_blobs sigma_list maxima
  if lm.isEmpty then .ok (lm, image_cube)
  else
    match merge_blobs merge_overlap_dist lm with
    | .error e => .error e
    | .ok merged => .ok (prune_blobs overlap merged, image_cube)

/-- `np.linspace(start, stop, num)` (with endpoint): note that for
`num = 1` the Lean convention `x / 0 = 0` gives `[start]`, matching
numpy's special case. -/
noncomputable def linspace (start stop : ℝ) (num : ℕ) : List ℝ :=
  (List.range num).map fun i => start + i * ((stop - start) / (num - 1 : ℕ))

/-- `np.logspace(start, stop, num)`: base-10 powers of a linspace. -/
noncomputable def logspace (start stop : ℝ) (num : ℕ) : List ℝ :=
  (linspace start stop num).map fun e => (10 : ℝ) ^ e

/-- Python `int(x)`: truncation toward zero. -/
noncomputable def pyTrunc (v : ℝ) : ℤ := if v < 0 then ⌈v⌉ else ⌊v⌋

/-- The `ratio` scale list (log.py lines 324-328):
`k = int(log(max_sigma / min_sigma, sigma_ratio)) + 1` scales
`min_sigma * sigma_ratio ** i` for `i < k`. -/
noncomputable def ratio_list (min_sigma max_sigma sigma_ratio : ℝ) : List ℝ :=
  let k := (pyTrunc (Real.log (max_sigma / min_sigma) / Real.log sigma_ratio) + 1).toNat
  (List.range k).map fun i => min_sigma * sigma_ratio ^ i

/-- The scale-list selection of `blob_log` (log.py lines 318-331).
`Real.log` is total, while Python's `math.log` raises on nonpositive
arguments; the model is therefore faithful for positive sigma bounds
(the hypotheses carried by the theorems below). -/
noncomputable def blob_log_scales (sigma_list : Option (List ℝ))
    (scale_choice : String) (min_sigma max_sigma : ℝ) (num_sigma : ℕ)
    (sigma_ratio : ℝ) : Except String (List ℝ) :=
  match sigma_list with
  | some l => .ok l
  | none =>
    if scale_choice = "log" then
      .ok (logspace (Real.log min_sigma / Real.log 10)
        (Real.log max_sigma / Real.log 10) num_sigma)
    else if scale_choice = "linear" then
      .ok (linspace min_sigma max_sigma num_sigma)
    else if scale_choice = "ratio" then
      .ok (ratio_list min_sigma max_sigma sigma_ratio)
    else .error ("scale_choice must be log, linear, or ratio.")

/-- The configuration stage of `blob_log` (log.py lines 318-338): build
the scale list, then validate the optional weighting against it
(`IndexError` on a length mismatch, `np.ones_like` default otherwise).
Both failures happen before any response-stack computation, so an error
carries no partial output. -/
noncomputable def blob_log_config (sigma_list : Option (List ℝ))
    (scale_choice : String) (min_sigma max_sigma : ℝ) (num_sigma : ℕ)
    (sigma_ratio : ℝ) (weighting : Option (List ℝ)) :
    Except String (List ℝ × List ℝ) :=
  match blob_log_scales sigma_list scale_choice min_sigma max_sigma
      num_sigma sigma_ratio with
  | .error e => .error e
  | .ok sl =>
    match weighting with
    | some w =>
      if w.length ≠ sl.length then
        .error ("IndexError: weighting must have the same number of elements as scales")
      else .ok (sl, w)
    | none => .ok (sl, List.replicate sl.length 1)

/-! Helper lemmas about the geometry kernels. -/

theorem sqrt3_lt_two : Real.sqrt 3 < 2 :=
  (Real.sqrt_lt' (by norm_num)).mpr (by norm_num)

theorem arccos_one_half : Real.arccos (1 / 2) = Real.pi / 3 := by
  rw [← Real.cos_pi_div_three]
  exact Real.arccos_cos (by positivity) (by linarith [Real.pi_pos])

theorem arccos_sqrt_two_div_two : Real.arccos (Real.sqrt 2 / 2) = Real.pi / 4 := by
  rw [← Real.cos_pi_div_four]
  exact Real.arccos_cos (by positivity) (by linarith [Real.pi_pos])

theorem min_merge_overlap_one :
    min_merge_overlap 1 = 2 / 3 - Real.sqrt 3 / (2 * Real.pi) := by
  have hpi := Real.pi_pos
  have h3 : ((2 : ℝ) - 1) * (2 + 1) = 3 := by norm_num
  have h1 : (1 : ℝ) / 2 = 1 / 2 := rfl
  simp only [min_merge_overlap, h3]
  rw [arccos_one_half]
  field_simp
  ring

theorem min_merge_overlap_one_pos : 0 < min_merge_overlap 1 := by
  have hpi := Real.pi_gt_three
  rw [min_merge_overlap_one]
  have h2 : Real.sqrt 3 / (2 * Real.pi) < 2 / 3 := by
    rw [div_lt_iff (by linarith)]
    nlinarith [sqrt3_lt_two]
  linarith

theorem min_merge_overlap_one_lt_one : min_merge_overlap 1 < 1 := by
  have h : 0 ≤ Real.sqrt 3 / (2 * Real.pi) := by positivity
  rw [min_merge_overlap_one]
  linarith

theorem eps_lt_min_merge_overlap_one : (1e-5 : ℝ) < min_merge_overlap 1 := by
  have hpi := Real.pi_gt_three
  rw [min_merge_overlap_one]
  have h2 : Real.sqrt 3 / (2 * Real.pi) < 1 / 3 := by
    rw [div_lt_iff (by linarith)]
    nlinarith [sqrt3_lt_two]
  have h3 : (1e-5 : ℝ) < 1 / 3 := by norm_num
  linarith

theorem blob_overlap_of_far (b1 b2 : Blob)
    (h : blobDist b1 b2 > b1.major + b2.major) : blob_overlap b1 b2 = 0 := by
  simp only [blob_overlap]
  rw [if_pos h]

theorem blob_overlap_of_touch (b1 b2 : Blob)
    (h : blobDist b1 b2 = b1.major + b2.major) : blob_overlap b1 b2 = 1e-5 := by
  simp only [blob_overlap]
  rw [if_neg (by rw [h]; exact lt_irrefl _), if_pos h]

theorem blob_overlap_of_nested (b1 b2 : Blob)
    (h1 : blobDist b1 b2 < b1.major + b2.major)
    (h2 : blobDist b1 b2 ≤ |b1.major - b2.major|) : blob_overlap b1 b2 = 1 := by
  simp only [blob_overlap]
  rw [if_neg (not_lt.mpr h1.le), if_neg (ne_of_lt h1), if_pos h2]

theorem overlap_metric_of_circular (b1 b2 : Blob) (h1 : b1.major = b1.minor)
    (h2 : b2.major = b2.minor) :
    overlap_metric b1 b2 =
      if blob_overlap b1 b2 = 1e-5 then 0 else blob_overlap b1 b2 := by
  have h : ¬(b1.major ≠ b1.minor ∨ b2.major ≠ b2.minor) := by
    push_neg
    exact ⟨h1, h2⟩
  simp only [overlap_metric]
  rw [if_neg h]

theorem overlap_metric_of_far (b1 b2 : Blob) (h1 : b1.major = b1.minor)
    (h2 : b2.major = b2.minor)
    (h : blobDist b1 b2 > b1.major + b2.major) : overlap_metric b1 b2 = 0 := by
  rw [overlap_metric_of_circular b1 b2 h1 h2, blob_overlap_of_far b1 b2 h,
    if_neg (by norm_num)]

theorem blob_overlap_equal_radii (b1 b2 : Blob) (r : ℝ)
    (h1 : b1.major = r) (h2 : b2.major = r) (hr : 0 < r)
    (hd0 : 0 < blobDist b1 b2) (hd2 : blobDist b1 b2 < 2 * r) :
    blob_overlap b1 b2
      = (2 * r ^ 2 * Real.arccos (blobDist b1 b2 / (2 * r))
          - blobDist b1 b2 / 2 * Real.sqrt (4 * r ^ 2 - blobDist b1 b2 ^ 2))
        / (Real.pi * r ^ 2) := by
  have hdne : blobDist b1 b2 ≠ 0 := ne_of_gt hd0
  have hrne : r ≠ 0 := ne_of_gt hr
  simp only [blob_overlap, h1, h2]
  rw [if_neg (by push_neg; linarith), if_neg (by intro hc; linarith),
    if_neg (by rw [sub_self, abs_zero]; push_neg; exact hd0)]
  have hratio : (blobDist b1 b2 ^ 2 + r ^ 2 - r ^ 2) / (2 * blobDist b1 b2 * r)
      = blobDist b1 b2 / (2 * r) := by
    field_simp
    ring
  have hx1 : blobDist b1 b2 / (2 * r) ≤ 1 := by
    rw [div_le_one (by positivity)]
    linarith
  have hx0 : (0 : ℝ) ≤ blobDist b1 b2 / (2 * r) := by positivity
  have hclip : clip (blobDist b1 b2 / (2 * r)) (-1) 1 = blobDist b1 b2 / (2 * r) := by
    simp only [clip]
    rw [min_eq_left hx1, max_eq_right (by linarith)]
  have habs : |(-blobDist b1 b2 + r + r) * (blobDist b1 b2 - r + r)
      * (blobDist b1 b2 + r - r) * (blobDist b1 b2 + r + r)|
      = blobDist b1 b2 ^ 2 * (4 * r ^ 2 - blobDist b1 b2 ^ 2) := by
    have e1 : (0 : ℝ) < -blobDist b1 b2 + r + r := by linarith
    have e2 : (0 : ℝ) < blobDist b1 b2 - r + r := by linarith
    have e3 : (0 : ℝ) < blobDist b1 b2 + r - r := by linarith
    have e4 : (0 : ℝ) < blobDist b1 b2 + r + r := by linarith
    rw [abs_of_nonneg (le_of_lt (mul_pos (mul_pos (mul_pos e1 e2) e3) e4))]
    ring
  rw [hratio, hclip, habs, Real.sqrt_mul (sq_nonneg _), Real.sqrt_sq hd0.le]
  rw [min_self]
  ring_nf

theorem lens_band (r d A s : ℝ) (hr : 0 < r) (hd0 : 0 < d) (hdr : d < r)
    (hA : A = Real.arccos (d / (2 * r))) (hs : s = Real.sqrt (4 * r ^ 2 - d ^ 2)) :
    min_merge_overlap 1 < (2 * r ^ 2 * A - d / 2 * s) / (Real.pi * r ^ 2)
      ∧ (2 * r ^ 2 * A - d / 2 * s) / (Real.pi * r ^ 2) ≤ 1 := by
  have hpi := Real.pi_pos
  have hx0 : (0 : ℝ) ≤ d / (2 * r) := by positivity
  have hx : d / (2 * r) < 1 / 2 := by
    rw [div_lt_div_iff (by positivity) (by norm_num)]
    linarith
  have hA3 : Real.pi / 3 < A := by
    rw [hA, ← arccos_one_half]
    exact Real.strictAntiOn_arccos ⟨by linarith, by linarith⟩
      ⟨by norm_num, by norm_num⟩ hx
  have hs0 : 0 ≤ s := hs ▸ Real.sqrt_nonneg _
  have hs2 : s ^ 2 = 4 * r ^ 2 - d ^ 2 := by
    rw [hs, Real.sq_sqrt (by nlinarith)]
  have ht0 : (0 : ℝ) ≤ Real.sqrt 3 := Real.sqrt_nonneg _
  have ht2 : Real.sqrt 3 ^ 2 = 3 := Real.sq_sqrt (by norm_num)
  have hds : d * s < Real.sqrt 3 * r ^ 2 := by
    by_contra hcon
    push_neg at hcon
    have hpos : (0 : ℝ) ≤ Real.sqrt 3 * r ^ 2 := by positivity
    have hsq : (Real.sqrt 3 * r ^ 2) ^ 2 ≤ (d * s) ^ 2 :=
      pow_le_pow_left hpos hcon 2
    have he1 : (Real.sqrt 3 * r ^ 2) ^ 2 = 3 * r ^ 4 := by
      rw [mul_pow, ht2]
      ring
    have he2 : (d * s) ^ 2 = d ^ 2 * (4 * r ^ 2 - d ^ 2) := by
      rw [mul_pow, hs2]
    rw [he1, he2] at hsq
    have hd2r : d ^ 2 < r ^ 2 := by nlinarith
    have hkey : (0 : ℝ) < (r ^ 2 - d ^ 2) * (3 * r ^ 2 - d ^ 2) :=
      mul_pos (by linarith) (by nlinarith)
    nlinarith
  constructor
  · rw [min_merge_overlap_one, lt_div_iff (by positivity)]
    have hexp : (2 / 3 - Real.sqrt 3 / (2 * Real.pi)) * (Real.pi * r ^ 2)
        = 2 * Real.pi * r ^ 2 / 3 - Real.sqrt 3 * r ^ 2 / 2 := by
      field_simp
      ring
    rw [hexp]
    have hA' : 2 * Real.pi * r ^ 2 / 3 < 2 * r ^ 2 * A := by
      have := mul_lt_mul_of_pos_left hA3 (show (0 : ℝ) < 2 * r ^ 2 by positivity)
      nlinarith
    nlinarith
  · rw [div_le_one (by positivity)]
    have hA2 : A ≤ Real.pi / 2 := by
      rw [hA]
      exact Real.arccos_le_pi_div_two.mpr hx0
    have : 2 * r ^ 2 * A ≤ 2 * r ^ 2 * (Real.pi / 2) :=
      mul_le_mul_of_nonneg_left hA2 (by positivity)
    nlinarith [mul_nonneg hd0.le hs0]

theorem metric_band_equal_radii (b1 b2 : Blob) (r : ℝ)
    (h1 : b1.major = r) (h1m : b1.minor = r) (h2 : b2.major = r) (h2m : b2.minor = r)
    (hr : 0 < r) (hd0 : 0 < blobDist b1 b2) (hdr : blobDist b1 b2 < r) :
    min_merge_overlap 1 < overlap_metric b1 b2 ∧ overlap_metric b1 b2 ≤ 1 := by
  have hval := blob_overlap_equal_radii b1 b2 r h1 h2 hr hd0 (by linarith)
  have hband := lens_band r (blobDist b1 b2)
    (Real.arccos (blobDist b1 b2 / (2 * r)))
    (Real.sqrt (4 * r ^ 2 - blobDist b1 b2 ^ 2)) hr hd0 hdr rfl rfl
  have hgt : min_merge_overlap 1 < blob_overlap b1 b2 := hval ▸ hband.1
  have hle : blob_overlap b1 b2 ≤ 1 := hval ▸ hband.2
  have hmetric : overlap_metric b1 b2 = blob_overlap b1 b2 := by
    rw [overlap_metric_of_circular b1 b2 (h1.trans h1m.symm) (h2.trans h2m.symm),
      if_neg]
    intro hc
    rw [hc] at hgt
    exact absurd hgt (not_lt.mpr eps_lt_min_merge_overlap_one.le)
  rw [hmetric]
  exact ⟨hgt, hle⟩

theorem metric_sqrt2_equal_radii (b1 b2 : Blob) (r : ℝ)
    (h1 : b1.major = r) (h1m : b1.minor = r) (h2 : b2.major = r) (h2m : b2.minor = r)
    (hr : 0 < r) (hd : blobDist b1 b2 = Real.sqrt 2 * r) :
    overlap_metric b1 b2 = 1 / 2 - 1 / Real.pi
      ∧ overlap_metric b1 b2 ≤ min_merge_overlap 1 := by
  have hpi := Real.pi_gt_three
  have hs2 : (0 : ℝ) < Real.sqrt 2 := Real.sqrt_pos.mpr (by norm_num)
  have hs2lt : Real.sqrt 2 < 2 := (Real.sqrt_lt' (by norm_num)).mpr (by norm_num)
  have hd0 : 0 < blobDist b1 b2 := hd ▸ by positivity
  have hd2 : blobDist b1 b2 < 2 * r := hd ▸ by nlinarith
  have hval := blob_overlap_equal_radii b1 b2 r h1 h2 hr hd0 hd2
  have hratio : blobDist b1 b2 / (2 * r) = Real.sqrt 2 / 2 := by
    rw [hd]
    field_simp
    ring
  have hsq : blobDist b1 b2 ^ 2 = 2 * r ^ 2 := by
    rw [hd, mul_pow, Real.sq_sqrt (by norm_num)]
  have hsqrt : Real.sqrt (4 * r ^ 2 - blobDist b1 b2 ^ 2) = Real.sqrt 2 * r := by
    rw [hsq, show 4 * r ^ 2 - 2 * r ^ 2 = 2 * r ^ 2 by ring,
      Real.sqrt_mul (by norm_num), Real.sqrt_sq hr.le]
  have hvalue : blob_overlap b1 b2 = 1 / 2 - 1 / Real.pi := by
    rw [hval, hratio, arccos_sqrt_two_div_two, hsqrt, hd]
    have h22 : Real.sqrt 2 * Real.sqrt 2 = 2 := Real.mul_self_sqrt (by norm_num)
    have hnum : 2 * r ^ 2 * (Real.pi / 4) - Real.sqrt 2 * r / 2 * (Real.sqrt 2 * r)
        = Real.pi * r ^ 2 / 2 - r ^ 2 := by
      linear_combination (-(r ^ 2) / 2) * h22
    rw [hnum]
    have hpine : Real.pi ≠ 0 := by linarith
    have hrne : r ≠ 0 := ne_of_gt hr
    field_simp
    ring
  have hlt : blob_overlap b1 b2 ≤ min_merge_overlap 1 := by
    rw [hvalue, min_merge_overlap_one]
    have h1' : Real.sqrt 3 / (2 * Real.pi) ≤ 1 / Real.pi := by
      rw [div_le_div_iff (by linarith) (by linarith)]
      nlinarith [sqrt3_lt_two]
    linarith
  have hne : blob_overlap b1 b2 ≠ 1e-5 := by
    rw [hvalue]
    have h3 : 1 / Real.pi < 1 / 3 := by
      rw [div_lt_div_iff (by linarith) (by norm_num)]
      linarith
    have h4 : (1e-5 : ℝ) < 1 / 6 := by norm_num
    intro hc
    rw [← hc] at h4
    linarith
  have hmetric : overlap_metric b1 b2 = blob_overlap b1 b2 := by
    rw [overlap_metric_of_circular b1 b2 (h1.trans h1m.symm) (h2.trans h2m.symm),
      if_neg hne]
  rw [hmetric, hvalue]
  exact ⟨rfl, hvalue ▸ hlt⟩

/-! Helper lemmas about the pair enumeration and list plumbing. -/

theorem upperPairs_mem {n : ℕ} {ij : ℕ × ℕ} (h : ij ∈ upperPairs n) :
    ij.1 < ij.2 ∧ ij.2 < n := by
  simp only [upperPairs, List.mem_flatMap, List.mem_map, List.mem_range] at h
  obtain ⟨i, hi, k, hk, rfl⟩ := h
  constructor <;> simp <;> omega

theorem upperPairs_two : upperPairs 2 = [(0, 1)] := by decide

theorem upperPairs_three : upperPairs 3 = [(0, 1), (0, 2), (1, 2)] := by decide

theorem upperPairs_four :
    upperPairs 4 = [(0, 1), (0, 2), (0, 3), (1, 2), (1, 3), (2, 3)] := by decide

theorem upperPairs_five :
    upperPairs 5 = [(0, 1), (0, 2), (0, 3), (0, 4), (1, 2), (1, 3), (1, 4),
      (2, 3), (2, 4), (3, 4)] := by decide

theorem map_getD_range (l : List Blob) :
    (List.range l.length).map (fun k => l.getD k default) = l := by
  apply List.ext_get
  · simp
  · intro i h1 h2
    simp only [List.get_eq_getElem, List.getElem_map, List.getElem_range]
    exact List.getD_eq_getElem l default h2

theorem prune_blobs_sublist (overlap : ℝ) (bs : List Blob) :
    (prune_blobs overlap bs).Sublist bs := by
  have h1 : ((List.range bs.length).filter fun k =>
      decide (k ∉ remove_list overlap bs)).Sublist (List.range bs.length) :=
    List.filter_sublist _
  have h2 := h1.map fun k => bs.getD k default
  rw [map_getD_range] at h2
  exact h2

theorem length_filter_not_mem_single (m n : ℕ) (h : m < n) :
    ((List.range n).filter fun k => decide (k ∉ [m])).length = n - 1 := by
  induction n with
  | zero => omega
  | succ n ih =>
    rw [List.range_succ, List.filter_append, List.length_append]
    by_cases hm : m = n
    · subst hm
      have hall : (List.range m).filter (fun k => decide (k ∉ [m])) = List.range m := by
        apply List.filter_eq_self.mpr
        intro a ha
        simp only [List.mem_range] at ha
        simp only [List.mem_singleton, decide_eq_true_eq]
        omega
      rw [hall]
      simp
    · have hm' : m < n := by omega
      rw [ih hm']
      have hone : ([n].filter fun k => decide (k ∉ [m])) = [n] := by
        simp only [List.filter_eq_self, List.mem_singleton, decide_eq_true_eq,
          forall_eq]
        omega
      rw [hone]
      simp
      omega

theorem countP_le_countP {α : Type} (l : List α) (p q : α → Bool)
    (h : ∀ a, p a = true → q a = true) : l.countP p ≤ l.countP q := by
  induction l with
  | nil => simp
  | cons a t ih =>
    rw [List.countP_cons, List.countP_cons]
    by_cases hp : p a = true
    · rw [hp, h a hp]
      omega
    · have : p a = false := by
        cases hpa : p a
        · rfl
        · exact absurd hpa hp
      rw [this]
      cases hq : q a <;> simp <;> omega

theorem nat_div_le_one (o a : ℕ) (h : o ≤ a) : (o : ℝ) / (a : ℝ) ≤ 1 := by
  rcases Nat.eq_zero_or_pos a with ha | ha
  · subst ha
    have ho : o = 0 := Nat.le_zero.mp h
    subst ho
    norm_num
  · rw [div_le_one (by exact_mod_cast ha)]
    exact_mod_cast h

theorem iteRealLeOne {c : Prop} [Decidable c] {a b : ℝ} (ha : a ≤ 1) (hb : b ≤ 1) :
    (if c then a else b) ≤ 1 := by
  split_ifs <;> assumption

theorem ite_ratio_le_one (rl : Bool) (x y z : ℕ) (hy : x ≤ y) (hz : x ≤ z) :
    (if y > z then (if rl then (x : ℝ) / (y : ℝ) else (x : ℝ) / (z : ℝ))
      else (if rl then (x : ℝ) / (z : ℝ) else (x : ℝ) / (y : ℝ))) ≤ 1 := by
  split_ifs
  · exact nat_div_le_one _ _ hy
  · exact nat_div_le_one _ _ hz
  · exact nat_div_le_one _ _ hz
  · exact nat_div_le_one _ _ hy

theorem pixel_overlap_le_one (b1 b2 : Blob) (gs : ℝ) (rl : Bool) :
    pixel_overlap b1 b2 gs rl ≤ 1 := by
  classical
  simp only [pixel_overlap]
  apply iteRealLeOne zero_le_one
  apply ite_ratio_le_one <;>
    · apply countP_le_countP
      intro a ha
      rw [decide_eq_true_eq] at ha
      first
        | exact decide_eq_true ha.1
        | exact decide_eq_true ha.2

theorem blobDist_eval (b1 b2 : Blob) (v : ℝ) (hv : 0 ≤ v)
    (h : (b1.y - b2.y) ^ 2 + (b1.x - b2.x) ^ 2 = v ^ 2) : blobDist b1 b2 = v := by
  rw [blobDist, hypot, h, Real.sqrt_sq hv]

theorem blobDist_eval_sqrt (b1 b2 : Blob) (v : ℝ)
    (h : (b1.y - b2.y) ^ 2 + (b1.x - b2.x) ^ 2 = v) :
    blobDist b1 b2 = Real.sqrt v := by
  rw [blobDist, hypot, h]

/-! Claim theorems. -/

/-- C4 (amended): for circular detections with centre distance `d`,
`_blob_overlap` returns 0 when `d > r1 + r2`, the positive epsilon
`1e-5` (not zero) when `d = r1 + r2` exactly, and 1 when
`d ≤ |r1 - r2|` provided additionally `d < r1 + r2` (the epsilon branch
takes precedence when `d = r1 + r2`, which can coincide with the nested
case only when one radius is nonpositive). -/
theorem C4_blob_overlap_branches (b1 b2 : Blob) :
    (blobDist b1 b2 > b1.major + b2.major → blob_overlap b1 b2 = 0)
    ∧ (blobDist b1 b2 = b1.major + b2.major → blob_overlap b1 b2 = 1e-5)
    ∧ (blobDist b1 b2 < b1.major + b2.major →
        blobDist b1 b2 ≤ |b1.major - b2.major| → blob_overlap b1 b2 = 1) :=
  ⟨blob_overlap_of_far b1 b2, blob_overlap_of_touch b1 b2,
    blob_overlap_of_nested b1 b2⟩

/-- C4 counterexample: for the circular pair with radii `r1 = 1`,
`r2 = 0` at distance `d = 1` we have `d ≤ |r1 - r2|`, yet the code
returns `1e-5`, not 1 - the `d == r1 + r2` branch fires first.  The
claim's third clause is therefore false as universally stated. -/
theorem C4_counterexample :
    blobDist ⟨0, 0, 1, 1, 0⟩ ⟨0, 1, 0, 0, 0⟩
      ≤ |(Blob.mk 0 0 1 1 0).major - (Blob.mk 0 1 0 0 0).major|
    ∧ blob_overlap ⟨0, 0, 1, 1, 0⟩ ⟨0, 1, 0, 0, 0⟩ = 1e-5
    ∧ blob_overlap ⟨0, 0, 1, 1, 0⟩ ⟨0, 1, 0, 0, 0⟩ ≠ 1 := by
  have hd : blobDist ⟨0, 0, 1, 1, 0⟩ ⟨0, 1, 0, 0, 0⟩ = 1 :=
    blobDist_eval _ _ 1 (by norm_num) (by norm_num)
  have htouch : blob_overlap ⟨0, 0, 1, 1, 0⟩ ⟨0, 1, 0, 0, 0⟩ = 1e-5 :=
    blob_overlap_of_touch _ _ (by rw [hd]; norm_num)
  refine ⟨?_, htouch, ?_⟩
  · rw [hd]
    norm_num
  · rw [htouch]
    norm_num

/-- C4 witness: the three branches of the amended claim, each at a
concrete circular pair with radii 3 and 1 (distances 5, 4 and 1). -/
theorem C4_witness :
    (blobDist ⟨0, 0, 3, 3, 0⟩ ⟨0, 5, 1, 1, 0⟩ > 3 + 1
      ∧ blob_overlap ⟨0, 0, 3, 3, 0⟩ ⟨0, 5, 1, 1, 0⟩ = 0)
    ∧ (blobDist ⟨0, 0, 3, 3, 0⟩ ⟨0, 4, 1, 1, 0⟩ = 3 + 1
      ∧ blob_overlap ⟨0, 0, 3, 3, 0⟩ ⟨0, 4, 1, 1, 0⟩ = 1e-5)
    ∧ (blobDist ⟨0, 0, 3, 3, 0⟩ ⟨0, 1, 1, 1, 0⟩ < 3 + 1
      ∧ blobDist ⟨0, 0, 3, 3, 0⟩ ⟨0, 1, 1, 1, 0⟩ ≤ |(3 : ℝ) - 1|
      ∧ blob_overlap ⟨0, 0, 3, 3, 0⟩ ⟨0, 1, 1, 1, 0⟩ = 1) := by
  have hd5 : blobDist ⟨0, 0, 3, 3, 0⟩ ⟨0, 5, 1, 1, 0⟩ = 5 :=
    blobDist_eval _ _ 5 (by norm_num) (by norm_num)
  have hd4 : blobDist ⟨0, 0, 3, 3, 0⟩ ⟨0, 4, 1, 1, 0⟩ = 4 :=
    blobDist_eval _ _ 4 (by norm_num) (by norm_num)
  have hd1 : blobDist ⟨0, 0, 3, 3, 0⟩ ⟨0, 1, 1, 1, 0⟩ = 1 :=
    blobDist_eval _ _ 1 (by norm_num) (by norm_num)
  refine ⟨⟨by rw [hd5]; norm_num, (C4_blob_overlap_branches _ _).1 ?_⟩,
    ⟨by rw [hd4]; norm_num, (C4_blob_overlap_branches _ _).2.1 ?_⟩,
    by rw [hd1]; norm_num, by rw [hd1]; norm_num,
    (C4_blob_overlap_branches _ _).2.2 ?_ ?_⟩
  · rw [hd5]
    norm_num
  · rw [hd4]
    norm_num
  · rw [hd1]
    norm_num
  · rw [hd1]
    norm_num

/-- C5: `overlap_metric` dispatches to the pixel-sampled ellipse kernel
exactly when at least one detection is non-circular; for circular pairs
it returns the circle kernel's value, except that the `1e-5` value
produced by exactly-touching circles is mapped back to 0. -/
theorem C5_overlap_metric_dispatch (e1 e2 : Blob) :
    (e1.major ≠ e1.minor ∨ e2.major ≠ e2.minor →
      overlap_metric e1 e2 = pixel_overlap e1 e2 (1 / 5) false)
    ∧ (e1.major = e1.minor → e2.major = e2.minor →
        blob_overlap e1 e2 ≠ 1e-5 → overlap_metric e1 e2 = blob_overlap e1 e2)
    ∧ (e1.major = e1.minor → e2.major = e2.minor →
        blobDist e1 e2 = e1.major + e2.major →
        blob_overlap e1 e2 = 1e-5 ∧ overlap_metric e1 e2 = 0) := by
  refine ⟨?_, ?_, ?_⟩
  · intro h
    simp only [overlap_metric]
    rw [if_pos h]
  · intro h1 h2 hne
    rw [overlap_metric_of_circular e1 e2 h1 h2, if_neg hne]
  · intro h1 h2 hd
    have he := blob_overlap_of_touch e1 e2 hd
    exact ⟨he, by rw [overlap_metric_of_circular e1 e2 h1 h2, if_pos he]⟩

/-- C5 witness: an elongated-circular pair takes the pixel kernel; an
exactly-touching circular pair (radii 1, centres 2 apart) yields metric
0 while the raw circle kernel yields `1e-5`. -/
theorem C5_witness :
    ((Blob.mk 0 0 2 1 0).major ≠ (Blob.mk 0 0 2 1 0).minor
      ∧ overlap_metric ⟨0, 0, 2, 1, 0⟩ ⟨3, 3, 1, 1, 0⟩
        = pixel_overlap ⟨0, 0, 2, 1, 0⟩ ⟨3, 3, 1, 1, 0⟩ (1 / 5) false)
    ∧ (blobDist ⟨0, 0, 1, 1, 0⟩ ⟨0, 2, 1, 1, 0⟩ = 1 + 1
      ∧ blob_overlap ⟨0, 0, 1, 1, 0⟩ ⟨0, 2, 1, 1, 0⟩ = 1e-5
      ∧ overlap_metric ⟨0, 0, 1, 1, 0⟩ ⟨0, 2, 1, 1, 0⟩ = 0) := by
  have hne : (Blob.mk 0 0 2 1 0).major ≠ (Blob.mk 0 0 2 1 0).minor := by norm_num
  have hd : blobDist ⟨0, 0, 1, 1, 0⟩ ⟨0, 2, 1, 1, 0⟩ = 2 :=
    blobDist_eval _ _ 2 (by norm_num) (by norm_num)
  have hd' : blobDist ⟨0, 0, 1, 1, 0⟩ ⟨0, 2, 1, 1, 0⟩
      = (Blob.mk 0 0 1 1 0).major + (Blob.mk 0 2 1 1 0).major := by
    rw [hd]
    norm_num
  have h3 := (C5_overlap_metric_dispatch ⟨0, 0, 1, 1, 0⟩ ⟨0, 2, 1, 1, 0⟩).2.2
    rfl rfl hd'
  exact ⟨⟨hne, (C5_overlap_metric_dispatch _ _).1 (Or.inl hne)⟩,
    ⟨by rw [hd]; norm_num, h3.1, h3.2⟩⟩

/-- C2: with `use_shell_fraction=True` (here: shell fractions 0.9 and
0.3 on two identical circular detections overlapping with metric 1), the
very first over-threshold pair evaluates the unassigned name `cond` and
raises `NameError` - the code does not mark the lower-quality member and
does not return normally. -/
theorem C2_shell_prune_raises :
    prune_blobs_shell (1 / 2)
      [⟨0, 0, 1, 1, 0, 9 / 10, 0⟩, ⟨0, 0, 1, 1, 0, 3 / 10, 0⟩]
      = .error ("NameError: name cond is not defined") := by
  classical
  have hd : blobDist (⟨0, 0, 1, 1, 0⟩ : Blob) ⟨0, 0, 1, 1, 0⟩ = 0 :=
    blobDist_eval _ _ 0 le_rfl (by norm_num)
  have hov : blob_overlap (⟨0, 0, 1, 1, 0⟩ : Blob) ⟨0, 0, 1, 1, 0⟩ = 1 :=
    blob_overlap_of_nested _ _ (by rw [hd]; norm_num) (by rw [hd]; norm_num)
  have hmet : overlap_metric (⟨0, 0, 1, 1, 0⟩ : Blob) ⟨0, 0, 1, 1, 0⟩ = 1 := by
    rw [overlap_metric_of_circular _ _ rfl rfl, hov, if_neg (by norm_num)]
  have hpairs : over_pairs_shell (1 / 2)
      [⟨0, 0, 1, 1, 0, 9 / 10, 0⟩, ⟨0, 0, 1, 1, 0, 3 / 10, 0⟩] = [(0, 1)] := by
    have hlen : ([⟨0, 0, 1, 1, 0, 9 / 10, 0⟩, ⟨0, 0, 1, 1, 0, 3 / 10, 0⟩] :
        List QBlob).length = 2 := rfl
    have hb01 : decide ((1 : ℝ) / 2 ≤ overlap_metric
        (([⟨0, 0, 1, 1, 0, 9 / 10, 0⟩, ⟨0, 0, 1, 1, 0, 3 / 10, 0⟩] :
          List QBlob).getD 0 default).geom
        (([⟨0, 0, 1, 1, 0, 9 / 10, 0⟩, ⟨0, 0, 1, 1, 0, 3 / 10, 0⟩] :
          List QBlob).getD 1 default).geom) = true := by
      refine decide_eq_true ?_
      show (1 : ℝ) / 2 ≤ overlap_metric ⟨0, 0, 1, 1, 0⟩ ⟨0, 0, 1, 1, 0⟩
      rw [hmet]
      norm_num
    simp only [over_pairs_shell, hlen, upperPairs_two, List.filter_cons,
      List.filter_nil, hb01]
    simp
  simp only [prune_blobs_shell, hpairs]
  rw [if_neg (by simp)]

/-- C6: in plain pruning mode, each over-threshold pair marks exactly
its smaller-semi-major member for removal; the output is a sublist of
the input (each survivor kept once, in its original relative order);
and a list whose over-threshold relation consists of exactly one pair
shrinks by exactly one element. -/
theorem C6_prune_blobs (overlap : ℝ) (bs : List Blob) :
    (prune_blobs overlap bs).Sublist bs
    ∧ (∀ i j : ℕ, (i, j) ∈ over_pairs overlap bs →
        ((bs.getD i default).major < (bs.getD j default).major →
          markOf bs (i, j) = i)
        ∧ ((bs.getD j default).major < (bs.getD i default).major →
          markOf bs (i, j) = j))
    ∧ (∀ i j : ℕ, over_pairs overlap bs = [(i, j)] →
        (prune_blobs overlap bs).length + 1 = bs.length) := by
  refine ⟨prune_blobs_sublist overlap bs, ?_, ?_⟩
  · intro i j _
    constructor
    · intro h
      simp only [markOf]
      rw [if_neg (lt_asymm h)]
    · intro h
      simp only [markOf]
      rw [if_pos h]
  · intro i j h
    have hmem : (i, j) ∈ over_pairs overlap bs := by
      rw [h]
      exact List.mem_singleton_self _
    have hb := upperPairs_mem (List.mem_of_mem_filter hmem)
    have hm : markOf bs (i, j) < bs.length := by
      simp only [markOf]
      split_ifs
      · exact hb.2
      · omega
    have hrl : remove_list overlap bs = [markOf bs (i, j)] := by
      rw [remove_list, h, List.map_singleton]
    simp only [prune_blobs, List.length_map, hrl]
    rw [length_filter_not_mem_single _ _ hm]
    omega

/-- C6 witness: a nested circular pair (radii 1 and 3, same centre,
overlap 1 above the threshold 0.5) forms the only over-threshold pair;
the smaller-radius member (index 0) is the one marked, and pruning
shrinks the two-element list to one element. -/
theorem C6_witness :
    over_pairs (1 / 2) [⟨0, 0, 1, 1, 0⟩, ⟨0, 0, 3, 3, 0⟩] = [(0, 1)]
    ∧ markOf [⟨0, 0, 1, 1, 0⟩, ⟨0, 0, 3, 3, 0⟩] (0, 1) = 0
    ∧ (prune_blobs (1 / 2) [⟨0, 0, 1, 1, 0⟩, ⟨0, 0, 3, 3, 0⟩]).length + 1
      = ([⟨0, 0, 1, 1, 0⟩, ⟨0, 0, 3, 3, 0⟩] : List Blob).length := by
  classical
  have hd : blobDist (⟨0, 0, 1, 1, 0⟩ : Blob) ⟨0, 0, 3, 3, 0⟩ = 0 :=
    blobDist_eval _ _ 0 le_rfl (by norm_num)
  have hov : blob_overlap (⟨0, 0, 1, 1, 0⟩ : Blob) ⟨0, 0, 3, 3, 0⟩ = 1 :=
    blob_overlap_of_nested _ _ (by rw [hd]; norm_num) (by rw [hd]; norm_num)
  have hmet : overlap_metric (⟨0, 0, 1, 1, 0⟩ : Blob) ⟨0, 0, 3, 3, 0⟩ = 1 := by
    rw [overlap_metric_of_circular _ _ rfl rfl, hov, if_neg (by norm_num)]
  have hpairs : over_pairs (1 / 2) [⟨0, 0, 1, 1, 0⟩, ⟨0, 0, 3, 3, 0⟩] = [(0, 1)] := by
    have hlen : ([⟨0, 0, 1, 1, 0⟩, ⟨0, 0, 3, 3, 0⟩] : List Blob).length = 2 := rfl
    have hb01 : decide ((1 : ℝ) / 2 ≤ overlap_metric
        (([⟨0, 0, 1, 1, 0⟩, ⟨0, 0, 3, 3, 0⟩] : List Blob).getD 0 default)
        (([⟨0, 0, 1, 1, 0⟩, ⟨0, 0, 3, 3, 0⟩] : List Blob).getD 1 default)) = true := by
      refine decide_eq_true ?_
      show (1 : ℝ) / 2 ≤ overlap_metric ⟨0, 0, 1, 1, 0⟩ ⟨0, 0, 3, 3, 0⟩
      rw [hmet]
      norm_num
    simp only [over_pairs, hlen, upperPairs_two, List.filter_cons,
      List.filter_nil, hb01]
    simp
  refine ⟨hpairs, ?_, (C6_prune_blobs _ _).2.2 0 1 hpairs⟩
  exact ((C6_prune_blobs (1 / 2) _).2.1 0 1
    (by rw [hpairs]; exact List.mem_singleton_self _)).1
    (show (1 : ℝ) < 3 by norm_num)

/-- C10: when an over-threshold pair has exactly equal semi-major axes,
the branch `blob1[2] > blob2[2]` is false and `posn1` - the pair's lower
index, i.e. the earlier detection - is the one marked for removal, so
the later-indexed member deterministically survives the tie (shown
concretely on a two-element list, where the output is exactly the
second detection). -/
theorem C10_prune_tie :
    (∀ (overlap : ℝ) (bs : List Blob) (i j : ℕ), (i, j) ∈ over_pairs overlap bs →
      (bs.getD i default).major = (bs.getD j default).major →
      markOf bs (i, j) = i ∧ i < j)
    ∧ (∀ (overlap : ℝ) (b1 b2 : Blob), overlap ≤ overlap_metric b1 b2 →
        b1.major = b2.major → prune_blobs overlap [b1, b2] = [b2]) := by
  constructor
  · intro overlap bs i j hmem heq
    refine ⟨?_, (upperPairs_mem (List.mem_of_mem_filter hmem)).1⟩
    simp only [markOf]
    rw [if_neg (not_lt.mpr (le_of_eq heq))]
  · intro overlap b1 b2 hov heq
    classical
    have hpair : over_pairs overlap [b1, b2] = [(0, 1)] := by
      have hlen : ([b1, b2] : List Blob).length = 2 := rfl
      have hb01 : decide (overlap ≤ overlap_metric
          (([b1, b2] : List Blob).getD 0 default)
          (([b1, b2] : List Blob).getD 1 default)) = true := by
        refine decide_eq_true ?_
        show overlap ≤ overlap_metric b1 b2
        exact hov
      simp only [over_pairs, hlen, upperPairs_two, List.filter_cons,
        List.filter_nil, hb01]
      simp
    have hmark : markOf [b1, b2] (0, 1) = 0 := by
      simp only [markOf]
      rw [if_neg (not_lt.mpr (le_of_eq (show (([b1, b2] :
        List Blob).getD 0 default).major = (([b1, b2] :
        List Blob).getD 1 default).major from heq)))]
    have hrl : remove_list overlap [b1, b2] = [0] := by
      rw [remove_list, hpair, List.map_singleton, hmark]
    have hlen2 : ([b1, b2] : List Blob).length = 2 := rfl
    simp only [prune_blobs, hrl, hlen2]
    have hfilt : ((List.range 2).filter fun k => decide (k ∉ [0])) = [1] := by
      decide
    rw [hfilt]
    rfl

/-- C10 witness: two identical circular detections (equal semi-major
axes, overlap 1 above threshold 0.5): the earlier one is marked and the
later one survives. -/
theorem C10_witness :
    (1 : ℝ) / 2 ≤ overlap_metric ⟨0, 0, 1, 1, 0⟩ ⟨0, 0, 1, 1, 0⟩
    ∧ prune_blobs (1 / 2) [⟨0, 0, 1, 1, 0⟩, ⟨0, 0, 1, 1, 0⟩]
      = [⟨0, 0, 1, 1, 0⟩] := by
  have hd : blobDist (⟨0, 0, 1, 1, 0⟩ : Blob) ⟨0, 0, 1, 1, 0⟩ = 0 :=
    blobDist_eval _ _ 0 le_rfl (by norm_num)
  have hov : blob_overlap (⟨0, 0, 1, 1, 0⟩ : Blob) ⟨0, 0, 1, 1, 0⟩ = 1 :=
    blob_overlap_of_nested _ _ (by rw [hd]; norm_num) (by rw [hd]; norm_num)
  have hmet : overlap_metric (⟨0, 0, 1, 1, 0⟩ : Blob) ⟨0, 0, 1, 1, 0⟩ = 1 := by
    rw [overlap_metric_of_circular _ _ rfl rfl, hov, if_neg (by norm_num)]
  have hle : (1 : ℝ) / 2 ≤ overlap_metric ⟨0, 0, 1, 1, 0⟩ ⟨0, 0, 1, 1, 0⟩ := by
    rw [hmet]
    norm_num
  exact ⟨hle, C10_prune_tie.2 (1 / 2) _ _ hle rfl⟩

theorem overlap_metric_of_noncircular (b1 b2 : Blob)
    (h : b1.major ≠ b1.minor ∨ b2.major ≠ b2.minor) :
    overlap_metric b1 b2 = pixel_overlap b1 b2 (1 / 5) false := by
  simp only [overlap_metric]
  rw [if_pos h]

theorem overlap_metric_le_one_of_noncircular (b1 b2 : Blob)
    (h : b1.major ≠ b1.minor ∨ b2.major ≠ b2.minor) :
    overlap_metric b1 b2 ≤ 1 := by
  rw [overlap_metric_of_noncircular b1 b2 h]
  exact pixel_overlap_le_one b1 b2 (1 / 5) false

theorem merge_to_ellipse_pa_of_coincident (b1 b2 : Blob)
    (hx : b1.x = b2.x) (hy : b1.y = b2.y) :
    (merge_to_ellipse b1 b2).pa ∉ Set.Ico 0 Real.pi := by
  have hpi := Real.pi_pos
  simp only [merge_to_ellipse, if_pos hx, if_pos hy]
  rw [if_neg (by linarith : ¬Real.pi < 0)]
  simp [Set.mem_Ico]

theorem merge_to_ellipse_pa_mem (b1 b2 : Blob)
    (hne : b1.x ≠ b2.x ∨ b1.y ≠ b2.y) :
    (merge_to_ellipse b1 b2).pa ∈ Set.Ico 0 Real.pi := by
  have hpi := Real.pi_pos
  rw [Set.mem_Ico]
  by_cases h1 : b1.x = b2.x
  · have h2 : b1.y ≠ b2.y := by
      rcases hne with h | h
      · exact absurd h1 h
      · exact h
    simp only [merge_to_ellipse, if_pos h1, if_neg h2]
    rw [if_neg (by linarith : ¬Real.pi / 2 < 0)]
    constructor <;> linarith
  · simp only [merge_to_ellipse, if_neg h1]
    have hlt := Real.arctan_lt_pi_div_two ((b1.y - b2.y) / (b1.x - b2.x))
    have hgt := Real.neg_pi_div_two_lt_arctan ((b1.y - b2.y) / (b1.x - b2.x))
    split_ifs with h3
    · constructor <;> linarith
    · push_neg at h3
      constructor <;> linarith

theorem merge_to_ellipse_pa_formula (b1 b2 : Blob) (hx : b1.x ≠ b2.x) :
    (merge_to_ellipse b1 b2).pa = Real.arctan ((b1.y - b2.y) / (b1.x - b2.x))
    ∨ (merge_to_ellipse b1 b2).pa
      = Real.arctan ((b1.y - b2.y) / (b1.x - b2.x)) + Real.pi := by
  simp only [merge_to_ellipse]
  rw [if_neg hx]
  split_ifs with h
  · right
    ring
  · left
    rfl

theorem prune_blobs_of_no_pairs (overlap : ℝ) (bs : List Blob)
    (h : over_pairs overlap bs = []) : prune_blobs overlap bs = bs := by
  have hrl : remove_list overlap bs = [] := by
    rw [remove_list, h, List.map_nil]
  have hfilt : ((List.range bs.length).filter fun k =>
      decide (k ∉ remove_list overlap bs)) = List.range bs.length := by
    apply List.filter_eq_self.mpr
    intro a _
    rw [hrl]
    exact decide_eq_true (by simp)
  simp only [prune_blobs, hfilt, map_getD_range]

/-- C1 counterexample: two circular detections with UNEQUAL radii 1 and
2 whose overlap (= 1, the nested case) lies in the merge band:
`_merge_blobs` leaves the list unchanged - no ellipse is synthesized -
because the code additionally requires `blob1[2] == blob2[2]` (its
docstring: "Blobs must be the same size to merge"), which the claim
omits. -/
theorem C1_counterexample :
    (Blob.mk 0 0 1 1 0).major = (Blob.mk 0 0 1 1 0).minor
    ∧ (Blob.mk 0 1 2 2 0).major = (Blob.mk 0 1 2 2 0).minor
    ∧ min_merge_overlap 1 < overlap_metric ⟨0, 0, 1, 1, 0⟩ ⟨0, 1, 2, 2, 0⟩
    ∧ overlap_metric ⟨0, 0, 1, 1, 0⟩ ⟨0, 1, 2, 2, 0⟩ ≤ 1
    ∧ merge_blobs 1 [⟨0, 0, 1, 1, 0⟩, ⟨0, 1, 2, 2, 0⟩]
      = .ok [⟨0, 0, 1, 1, 0⟩, ⟨0, 1, 2, 2, 0⟩] := by
  classical
  have hd : blobDist (⟨0, 0, 1, 1, 0⟩ : Blob) ⟨0, 1, 2, 2, 0⟩ = 1 :=
    blobDist_eval _ _ 1 (by norm_num) (by norm_num)
  have hov : blob_overlap (⟨0, 0, 1, 1, 0⟩ : Blob) ⟨0, 1, 2, 2, 0⟩ = 1 :=
    blob_overlap_of_nested _ _ (by rw [hd]; norm_num) (by rw [hd]; norm_num)
  have hmet : overlap_metric (⟨0, 0, 1, 1, 0⟩ : Blob) ⟨0, 1, 2, 2, 0⟩ = 1 := by
    rw [overlap_metric_of_circular _ _ rfl rfl, hov, if_neg (by norm_num)]
  have hband : band_pairs 1 [⟨0, 0, 1, 1, 0⟩, ⟨0, 1, 2, 2, 0⟩] = [(0, 1)] := by
    have hlen : ([⟨0, 0, 1, 1, 0⟩, ⟨0, 1, 2, 2, 0⟩] : List Blob).length = 2 := rfl
    have hb01 : decide (min_merge_overlap 1 < overlap_metric
        (([⟨0, 0, 1, 1, 0⟩, ⟨0, 1, 2, 2, 0⟩] : List Blob).getD 0 default)
        (([⟨0, 0, 1, 1, 0⟩, ⟨0, 1, 2, 2, 0⟩] : List Blob).getD 1 default)
        ∧ overlap_metric
        (([⟨0, 0, 1, 1, 0⟩, ⟨0, 1, 2, 2, 0⟩] : List Blob).getD 0 default)
        (([⟨0, 0, 1, 1, 0⟩, ⟨0, 1, 2, 2, 0⟩] : List Blob).getD 1 default) ≤ 1)
        = true := by
      refine decide_eq_true ?_
      show min_merge_overlap 1 < overlap_metric ⟨0, 0, 1, 1, 0⟩ ⟨0, 1, 2, 2, 0⟩
        ∧ overlap_metric ⟨0, 0, 1, 1, 0⟩ ⟨0, 1, 2, 2, 0⟩ ≤ 1
      rw [hmet]
      exact ⟨min_merge_overlap_one_lt_one, le_rfl⟩
    simp only [band_pairs, hlen, upperPairs_two, List.filter_cons,
      List.filter_nil, hb01]
    simp
  have hstep : mergeStep (([⟨0, 0, 1, 1, 0⟩, ⟨0, 1, 2, 2, 0⟩] : List Blob),
      ([] : List Blob)) (0, 1) = ([⟨0, 0, 1, 1, 0⟩, ⟨0, 1, 2, 2, 0⟩], []) := by
    simp only [mergeStep]
    split_ifs with hcond
    · exfalso
      have h12 : (1 : ℝ) = 2 := hcond.1
      norm_num at h12
    · rfl
  have hsurv : (([⟨0, 0, 1, 1, 0⟩, ⟨0, 1, 2, 2, 0⟩] : List Blob).filter
      fun b => decide (0 < b.major)) = [⟨0, 0, 1, 1, 0⟩, ⟨0, 1, 2, 2, 0⟩] := by
    apply List.filter_eq_self.mpr
    intro a ha
    simp only [List.mem_cons, List.not_mem_nil, or_false] at ha
    rcases ha with rfl | rfl
    · exact decide_eq_true (by norm_num)
    · exact decide_eq_true (by norm_num)
  refine ⟨rfl, rfl, by rw [hmet]; exact min_merge_overlap_one_lt_one,
    by rw [hmet], ?_⟩
  simp only [merge_blobs, hband, List.foldl_cons, List.foldl_nil, hstep, hsurv]
  rw [if_neg (by simp)]
  simp

/-- C1 (amended): for a pair of circular detections of EQUAL radius `r`
(the condition `blob1[2] == blob2[2]` required by the code and its
docstring, which the claim omits) whose overlap lies in the band
`(min_merge_overlap 1, 1]`, `_merge_blobs` replaces the pair with
exactly one new elliptical detection: centre the midpoint of the two
centres, semi-major `r + d/2` with `d` the centre distance, semi-minor
`r`, and - provided the two centres are distinct, since at exactly
coincident centres the code's `0.0/0.0` quotient makes the position
angle NaN - position angle `arctan((y1-y2)/(x1-x2))` normalized into
`[0, pi)`.  A third, non-overlapping detection `c` witnesses that the
rest of the list is compacted unchanged (the pass's final `np.vstack`
requires at least one surviving row). -/
theorem C1_merge_pair (b1 b2 c : Blob) (r : ℝ)
    (h1 : b1.major = r) (h1m : b1.minor = r)
    (h2 : b2.major = r) (h2m : b2.minor = r)
    (hne : b1.x ≠ b2.x ∨ b1.y ≠ b2.y)
    (hband1 : min_merge_overlap 1 < overlap_metric b1 b2)
    (hband2 : overlap_metric b1 b2 ≤ 1)
    (hc1 : overlap_metric b1 c ≤ min_merge_overlap 1)
    (hc2 : overlap_metric b2 c ≤ min_merge_overlap 1)
    (hcpos : 0 < c.major) :
    merge_blobs 1 [b1, b2, c] = .ok [c, merge_to_ellipse b1 b2]
    ∧ (merge_to_ellipse b1 b2).y = (b1.y + b2.y) / 2
    ∧ (merge_to_ellipse b1 b2).x = (b1.x + b2.x) / 2
    ∧ (merge_to_ellipse b1 b2).major = r + blobDist b1 b2 / 2
    ∧ (merge_to_ellipse b1 b2).minor = r
    ∧ (merge_to_ellipse b1 b2).pa ∈ Set.Ico 0 Real.pi
    ∧ (b1.x ≠ b2.x →
        (merge_to_ellipse b1 b2).pa = Real.arctan ((b1.y - b2.y) / (b1.x - b2.x))
        ∨ (merge_to_ellipse b1 b2).pa
          = Real.arctan ((b1.y - b2.y) / (b1.x - b2.x)) + Real.pi) := by
  classical
  have hmerge : merge_blobs 1 [b1, b2, c] = .ok [c, merge_to_ellipse b1 b2] := by
    have hlen : ([b1, b2, c] : List Blob).length = 3 := rfl
    have hb01 : decide (min_merge_overlap 1 < overlap_metric
        (([b1, b2, c] : List Blob).getD 0 default)
        (([b1, b2, c] : List Blob).getD 1 default)
        ∧ overlap_metric (([b1, b2, c] : List Blob).getD 0 default)
        (([b1, b2, c] : List Blob).getD 1 default) ≤ 1) = true := by
      refine decide_eq_true ?_
      show min_merge_overlap 1 < overlap_metric b1 b2 ∧ overlap_metric b1 b2 ≤ 1
      exact ⟨hband1, hband2⟩
    have hb02 : decide (min_merge_overlap 1 < overlap_metric
        (([b1, b2, c] : List Blob).getD 0 default)
        (([b1, b2, c] : List Blob).getD 2 default)
        ∧ overlap_metric (([b1, b2, c] : List Blob).getD 0 default)
        (([b1, b2, c] : List Blob).getD 2 default) ≤ 1) = false := by
      refine decide_eq_false ?_
      intro hcon
      have : min_merge_overlap 1 < overlap_metric b1 c := hcon.1
      exact absurd this (not_lt.mpr hc1)
    have hb12 : decide (min_merge_overlap 1 < overlap_metric
        (([b1, b2, c] : List Blob).getD 1 default)
        (([b1, b2, c] : List Blob).getD 2 default)
        ∧ overlap_metric (([b1, b2, c] : List Blob).getD 1 default)
        (([b1, b2, c] : List Blob).getD 2 default) ≤ 1) = false := by
      refine decide_eq_false ?_
      intro hcon
      have : min_merge_overlap 1 < overlap_metric b2 c := hcon.1
      exact absurd this (not_lt.mpr hc2)
    have hband : band_pairs 1 [b1, b2, c] = [(0, 1)] := by
      simp only [band_pairs, hlen, upperPairs_three, List.filter_cons,
        List.filter_nil, hb01, hb02, hb12]
      simp
    have hstep : mergeStep (([b1, b2, c] : List Blob), ([] : List Blob)) (0, 1)
        = ([⟨b1.y, b1.x, -1, -1, b1.pa⟩, ⟨b2.y, b2.x, -1, -1, b2.pa⟩, c],
          [merge_to_ellipse b1 b2]) := by
      simp only [mergeStep]
      split_ifs with hcond
      · rfl
      · refine absurd ⟨?_, ?_⟩ hcond
        · show b1.major = b2.major
          rw [h1, h2]
        · push_neg
          constructor
          · show b1.major = b1.minor
            rw [h1, h1m]
          · show b2.major = b2.minor
            rw [h2, h2m]
    have hsurv : (([⟨b1.y, b1.x, -1, -1, b1.pa⟩, ⟨b2.y, b2.x, -1, -1, b2.pa⟩, c] :
        List Blob).filter fun b => decide (0 < b.major)) = [c] := by
      simp only [List.filter_cons, List.filter_nil, decide_eq_true_eq]
      simp only [if_neg (show ¬(0 : ℝ) < -1 by norm_num), if_pos hcpos]
    simp only [merge_blobs, hband, List.foldl_cons, List.foldl_nil, hstep, hsurv]
    rw [if_neg (by simp)]
    simp
  refine ⟨hmerge, rfl, rfl, ?_, ?_, merge_to_ellipse_pa_mem b1 b2 hne,
    merge_to_ellipse_pa_formula b1 b2⟩
  · show b1.major + blobDist b1 b2 / 2 = r + blobDist b1 b2 / 2
    rw [h1]
  · show b1.major = r
    exact h1

/-- C1 witness: equal unit circles at centre distance 1/2 (in band),
with a far-away third circle; the pair merges into the single ellipse
`(0, 1/4, 5/4, 1, 0)`. -/
theorem C1_merge_pair_witness :
    ((Blob.mk 0 0 1 1 0).x ≠ (Blob.mk 0 (1 / 2) 1 1 0).x
      ∨ (Blob.mk 0 0 1 1 0).y ≠ (Blob.mk 0 (1 / 2) 1 1 0).y)
    ∧ min_merge_overlap 1 < overlap_metric ⟨0, 0, 1, 1, 0⟩ ⟨0, 1 / 2, 1, 1, 0⟩
    ∧ overlap_metric ⟨0, 0, 1, 1, 0⟩ ⟨0, 1 / 2, 1, 1, 0⟩ ≤ 1
    ∧ overlap_metric ⟨0, 0, 1, 1, 0⟩ ⟨0, 10, 1, 1, 0⟩ ≤ min_merge_overlap 1
    ∧ overlap_metric ⟨0, 1 / 2, 1, 1, 0⟩ ⟨0, 10, 1, 1, 0⟩ ≤ min_merge_overlap 1
    ∧ merge_blobs 1 [⟨0, 0, 1, 1, 0⟩, ⟨0, 1 / 2, 1, 1, 0⟩, ⟨0, 10, 1, 1, 0⟩]
      = .ok [⟨0, 10, 1, 1, 0⟩, merge_to_ellipse ⟨0, 0, 1, 1, 0⟩ ⟨0, 1 / 2, 1, 1, 0⟩]
    ∧ (merge_to_ellipse ⟨0, 0, 1, 1, 0⟩ ⟨0, 1 / 2, 1, 1, 0⟩).major
      = 1 + blobDist ⟨0, 0, 1, 1, 0⟩ ⟨0, 1 / 2, 1, 1, 0⟩ / 2
    ∧ (merge_to_ellipse ⟨0, 0, 1, 1, 0⟩ ⟨0, 1 / 2, 1, 1, 0⟩).minor = 1
    ∧ (merge_to_ellipse ⟨0, 0, 1, 1, 0⟩ ⟨0, 1 / 2, 1, 1, 0⟩).pa
      ∈ Set.Ico 0 Real.pi := by
  have hd : blobDist (⟨0, 0, 1, 1, 0⟩ : Blob) ⟨0, 1 / 2, 1, 1, 0⟩ = 1 / 2 :=
    blobDist_eval _ _ (1 / 2) (by norm_num) (by norm_num)
  have hband := metric_band_equal_radii ⟨0, 0, 1, 1, 0⟩ ⟨0, 1 / 2, 1, 1, 0⟩ 1
    rfl rfl rfl rfl one_pos (by rw [hd]; norm_num) (by rw [hd]; norm_num)
  have hd1 : blobDist (⟨0, 0, 1, 1, 0⟩ : Blob) ⟨0, 10, 1, 1, 0⟩ = 10 :=
    blobDist_eval _ _ 10 (by norm_num) (by norm_num)
  have hd2 : blobDist (⟨0, 1 / 2, 1, 1, 0⟩ : Blob) ⟨0, 10, 1, 1, 0⟩ = 19 / 2 :=
    blobDist_eval _ _ (19 / 2) (by norm_num) (by norm_num)
  have hc1 : overlap_metric ⟨0, 0, 1, 1, 0⟩ ⟨0, 10, 1, 1, 0⟩
      ≤ min_merge_overlap 1 := by
    rw [overlap_metric_of_far _ _ rfl rfl (by rw [hd1]; norm_num)]
    exact min_merge_overlap_one_pos.le
  have hc2 : overlap_metric ⟨0, 1 / 2, 1, 1, 0⟩ ⟨0, 10, 1, 1, 0⟩
      ≤ min_merge_overlap 1 := by
    rw [overlap_metric_of_far _ _ rfl rfl (by rw [hd2]; norm_num)]
    exact min_merge_overlap_one_pos.le
  have hne : (Blob.mk 0 0 1 1 0).x ≠ (Blob.mk 0 (1 / 2) 1 1 0).x
      ∨ (Blob.mk 0 0 1 1 0).y ≠ (Blob.mk 0 (1 / 2) 1 1 0).y :=
    Or.inl (by norm_num)
  have h := C1_merge_pair ⟨0, 0, 1, 1, 0⟩ ⟨0, 1 / 2, 1, 1, 0⟩ ⟨0, 10, 1, 1, 0⟩ 1
    rfl rfl rfl rfl hne hband.1 hband.2 hc1 hc2 (by norm_num)
  exact ⟨hne, hband.1, hband.2, hc1, hc2, h.1, h.2.2.2.1, h.2.2.2.2.1,
    h.2.2.2.2.2.1⟩

/-- C3: a lexicographically late merge-eligible pair both of whose
members were already consumed (sentinel-marked with radius -1) by
earlier merges still satisfies the guard `blob1[2] == blob2[2]` (both
radii are -1) and is fed to `merge_to_ellipse` again: with equal unit
circles at indices 0..3 whose in-band pairs are (0,2), (1,3) and (2,3)
(plus a far-away survivor at index 4), the compacted output contains a
detection synthesized from the two sentinel rows, with semi-minor -1 and
negative semi-major.  This contradicts the claim that a sentinel-marked
detection is never reused and that the output contains no
sentinel-marked entries. -/
theorem C3_sentinel_reuse :
    merge_blobs 1 [⟨0, 0, 1, 1, 0⟩, ⟨3/2, 3/2, 1, 1, 0⟩, ⟨1/2, 1/2, 1, 1, 0⟩, ⟨1, 1, 1, 1, 0⟩, ⟨10, 0, 1, 1, 0⟩]
      = .ok [⟨10, 0, 1, 1, 0⟩,
        merge_to_ellipse ⟨0, 0, 1, 1, 0⟩ ⟨1/2, 1/2, 1, 1, 0⟩,
        merge_to_ellipse ⟨3/2, 3/2, 1, 1, 0⟩ ⟨1, 1, 1, 1, 0⟩,
        merge_to_ellipse ⟨1/2, 1/2, -1, -1, 0⟩ ⟨1, 1, -1, -1, 0⟩]
    ∧ (merge_to_ellipse ⟨1/2, 1/2, -1, -1, 0⟩ ⟨1, 1, -1, -1, 0⟩).minor = -1
    ∧ (merge_to_ellipse ⟨1/2, 1/2, -1, -1, 0⟩ ⟨1, 1, -1, -1, 0⟩).major < 0 := by
  classical
  have hd01 : blobDist (⟨0, 0, 1, 1, 0⟩ : Blob) ⟨3/2, 3/2, 1, 1, 0⟩ = Real.sqrt (9/2) :=
    blobDist_eval_sqrt _ _ (9/2) (by norm_num)
  have hd02 : blobDist (⟨0, 0, 1, 1, 0⟩ : Blob) ⟨1/2, 1/2, 1, 1, 0⟩ = Real.sqrt (1/2) :=
    blobDist_eval_sqrt _ _ (1/2) (by norm_num)
  have hd03 : blobDist (⟨0, 0, 1, 1, 0⟩ : Blob) ⟨1, 1, 1, 1, 0⟩ = Real.sqrt (2) :=
    blobDist_eval_sqrt _ _ (2) (by norm_num)
  have hd04 : blobDist (⟨0, 0, 1, 1, 0⟩ : Blob) ⟨10, 0, 1, 1, 0⟩ = 10 :=
    blobDist_eval _ _ 10 (by norm_num) (by norm_num)
  have hd12 : blobDist (⟨3/2, 3/2, 1, 1, 0⟩ : Blob) ⟨1/2, 1/2, 1, 1, 0⟩ = Real.sqrt (2) :=
    blobDist_eval_sqrt _ _ (2) (by norm_num)
  have hd13 : blobDist (⟨3/2, 3/2, 1, 1, 0⟩ : Blob) ⟨1, 1, 1, 1, 0⟩ = Real.sqrt (1/2) :=
    blobDist_eval_sqrt _ _ (1/2) (by norm_num)
  have hd14 : blobDist (⟨3/2, 3/2, 1, 1, 0⟩ : Blob) ⟨10, 0, 1, 1, 0⟩ = Real.sqrt (149/2) :=
    blobDist_eval_sqrt _ _ (149/2) (by norm_num)
  have hd23 : blobDist (⟨1/2, 1/2, 1, 1, 0⟩ : Blob) ⟨1, 1, 1, 1, 0⟩ = Real.sqrt (1/2) :=
    blobDist_eval_sqrt _ _ (1/2) (by norm_num)
  have hd24 : blobDist (⟨1/2, 1/2, 1, 1, 0⟩ : Blob) ⟨10, 0, 1, 1, 0⟩ = Real.sqrt (181/2) :=
    blobDist_eval_sqrt _ _ (181/2) (by norm_num)
  have hd34 : blobDist (⟨1, 1, 1, 1, 0⟩ : Blob) ⟨10, 0, 1, 1, 0⟩ = Real.sqrt (82) :=
    blobDist_eval_sqrt _ _ (82) (by norm_num)
  have hm01 : overlap_metric (⟨0, 0, 1, 1, 0⟩ : Blob) ⟨3/2, 3/2, 1, 1, 0⟩ = 0 :=
    overlap_metric_of_far _ _ rfl rfl (by rw [hd01]; exact (Real.lt_sqrt (by norm_num)).mpr (by norm_num))
  have hm02 := metric_band_equal_radii ⟨0, 0, 1, 1, 0⟩ ⟨1/2, 1/2, 1, 1, 0⟩ 1 rfl rfl rfl rfl
    one_pos (by rw [hd02]; exact Real.sqrt_pos.mpr (by norm_num))
    (by rw [hd02]; exact (Real.sqrt_lt' one_pos).mpr (by norm_num))
  have hm03 := metric_sqrt2_equal_radii ⟨0, 0, 1, 1, 0⟩ ⟨1, 1, 1, 1, 0⟩ 1 rfl rfl rfl rfl
    one_pos (by rw [hd03, mul_one])
  have hm04 : overlap_metric (⟨0, 0, 1, 1, 0⟩ : Blob) ⟨10, 0, 1, 1, 0⟩ = 0 :=
    overlap_metric_of_far _ _ rfl rfl (by rw [hd04]; norm_num)
  have hm12 := metric_sqrt2_equal_radii ⟨3/2, 3/2, 1, 1, 0⟩ ⟨1/2, 1/2, 1, 1, 0⟩ 1 rfl rfl rfl rfl
    one_pos (by rw [hd12, mul_one])
  have hm13 := metric_band_equal_radii ⟨3/2, 3/2, 1, 1, 0⟩ ⟨1, 1, 1, 1, 0⟩ 1 rfl rfl rfl rfl
    one_pos (by rw [hd13]; exact Real.sqrt_pos.mpr (by norm_num))
    (by rw [hd13]; exact (Real.sqrt_lt' one_pos).mpr (by norm_num))
  have hm14 : overlap_metric (⟨3/2, 3/2, 1, 1, 0⟩ : Blob) ⟨10, 0, 1, 1, 0⟩ = 0 :=
    overlap_metric_of_far _ _ rfl rfl (by rw [hd14]; exact (Real.lt_sqrt (by norm_num)).mpr (by norm_num))
  have hm23 := metric_band_equal_radii ⟨1/2, 1/2, 1, 1, 0⟩ ⟨1, 1, 1, 1, 0⟩ 1 rfl rfl rfl rfl
    one_pos (by rw [hd23]; exact Real.sqrt_pos.mpr (by norm_num))
    (by rw [hd23]; exact (Real.sqrt_lt' one_pos).mpr (by norm_num))
  have hm24 : overlap_metric (⟨1/2, 1/2, 1, 1, 0⟩ : Blob) ⟨10, 0, 1, 1, 0⟩ = 0 :=
    overlap_metric_of_far _ _ rfl rfl (by rw [hd24]; exact (Real.lt_sqrt (by norm_num)).mpr (by norm_num))
  have hm34 : overlap_metric (⟨1, 1, 1, 1, 0⟩ : Blob) ⟨10, 0, 1, 1, 0⟩ = 0 :=
    overlap_metric_of_far _ _ rfl rfl (by rw [hd34]; exact (Real.lt_sqrt (by norm_num)).mpr (by norm_num))
  have p01 : decide (min_merge_overlap 1 < overlap_metric
        (([⟨0, 0, 1, 1, 0⟩, ⟨3/2, 3/2, 1, 1, 0⟩, ⟨1/2, 1/2, 1, 1, 0⟩, ⟨1, 1, 1, 1, 0⟩, ⟨10, 0, 1, 1, 0⟩] : List Blob).getD 0 default)
        (([⟨0, 0, 1, 1, 0⟩, ⟨3/2, 3/2, 1, 1, 0⟩, ⟨1/2, 1/2, 1, 1, 0⟩, ⟨1, 1, 1, 1, 0⟩, ⟨10, 0, 1, 1, 0⟩] : List Blob).getD 1 default)
        ∧ overlap_metric (([⟨0, 0, 1, 1, 0⟩, ⟨3/2, 3/2, 1, 1, 0⟩, ⟨1/2, 1/2, 1, 1, 0⟩, ⟨1, 1, 1, 1, 0⟩, ⟨10, 0, 1, 1, 0⟩] : List Blob).getD 0 default)
        (([⟨0, 0, 1, 1, 0⟩, ⟨3/2, 3/2, 1, 1, 0⟩, ⟨1/2, 1/2, 1, 1, 0⟩, ⟨1, 1, 1, 1, 0⟩, ⟨10, 0, 1, 1, 0⟩] : List Blob).getD 1 default) ≤ 1)
      = false := by
    refine decide_eq_false ?_
    intro hcon
    have hlt : min_merge_overlap 1 < overlap_metric ⟨0, 0, 1, 1, 0⟩ ⟨3/2, 3/2, 1, 1, 0⟩ := hcon.1
    rw [hm01] at hlt
    exact absurd hlt (not_lt.mpr min_merge_overlap_one_pos.le)
  have p02 : decide (min_merge_overlap 1 < overlap_metric
        (([⟨0, 0, 1, 1, 0⟩, ⟨3/2, 3/2, 1, 1, 0⟩, ⟨1/2, 1/2, 1, 1, 0⟩, ⟨1, 1, 1, 1, 0⟩, ⟨10, 0, 1, 1, 0⟩] : List Blob).getD 0 default)
        (([⟨0, 0, 1, 1, 0⟩, ⟨3/2, 3/2, 1, 1, 0⟩, ⟨1/2, 1/2, 1, 1, 0⟩, ⟨1, 1, 1, 1, 0⟩, ⟨10, 0, 1, 1, 0⟩] : List Blob).getD 2 default)
        ∧ overlap_metric (([⟨0, 0, 1, 1, 0⟩, ⟨3/2, 3/2, 1, 1, 0⟩, ⟨1/2, 1/2, 1, 1, 0⟩, ⟨1, 1, 1, 1, 0⟩, ⟨10, 0, 1, 1, 0⟩] : List Blob).getD 0 default)
        (([⟨0, 0, 1, 1, 0⟩, ⟨3/2, 3/2, 1, 1, 0⟩, ⟨1/2, 1/2, 1, 1, 0⟩, ⟨1, 1, 1, 1, 0⟩, ⟨10, 0, 1, 1, 0⟩] : List Blob).getD 2 default) ≤ 1)
      = true := by
    refine decide_eq_true ?_
    show min_merge_overlap 1 < overlap_metric ⟨0, 0, 1, 1, 0⟩ ⟨1/2, 1/2, 1, 1, 0⟩
      ∧ overlap_metric ⟨0, 0, 1, 1, 0⟩ ⟨1/2, 1/2, 1, 1, 0⟩ ≤ 1
    exact ⟨hm02.1, hm02.2⟩
  have p03 : decide (min_merge_overlap 1 < overlap_metric
        (([⟨0, 0, 1, 1, 0⟩, ⟨3/2, 3/2, 1, 1, 0⟩, ⟨1/2, 1/2, 1, 1, 0⟩, ⟨1, 1, 1, 1, 0⟩, ⟨10, 0, 1, 1, 0⟩] : List Blob).getD 0 default)
        (([⟨0, 0, 1, 1, 0⟩, ⟨3/2, 3/2, 1, 1, 0⟩, ⟨1/2, 1/2, 1, 1, 0⟩, ⟨1, 1, 1, 1, 0⟩, ⟨10, 0, 1, 1, 0⟩] : List Blob).getD 3 default)
        ∧ overlap_metric (([⟨0, 0, 1, 1, 0⟩, ⟨3/2, 3/2, 1, 1, 0⟩, ⟨1/2, 1/2, 1, 1, 0⟩, ⟨1, 1, 1, 1, 0⟩, ⟨10, 0, 1, 1, 0⟩] : List Blob).getD 0 default)
        (([⟨0, 0, 1, 1, 0⟩, ⟨3/2, 3/2, 1, 1, 0⟩, ⟨1/2, 1/2, 1, 1, 0⟩, ⟨1, 1, 1, 1, 0⟩, ⟨10, 0, 1, 1, 0⟩] : List Blob).getD 3 default) ≤ 1)
      = false := by
    refine decide_eq_false ?_
    intro hcon
    have hlt : min_merge_overlap 1 < overlap_metric ⟨0, 0, 1, 1, 0⟩ ⟨1, 1, 1, 1, 0⟩ := hcon.1
    exact absurd hlt (not_lt.mpr hm03.2)
  have p04 : decide (min_merge_overlap 1 < overlap_metric
        (([⟨0, 0, 1, 1, 0⟩, ⟨3/2, 3/2, 1, 1, 0⟩, ⟨1/2, 1/2, 1, 1, 0⟩, ⟨1, 1, 1, 1, 0⟩, ⟨10, 0, 1, 1, 0⟩] : List Blob).getD 0 default)
        (([⟨0, 0, 1, 1, 0⟩, ⟨3/2, 3/2, 1, 1, 0⟩, ⟨1/2, 1/2, 1, 1, 0⟩, ⟨1, 1, 1, 1, 0⟩, ⟨10, 0, 1, 1, 0⟩] : List Blob).getD 4 default)
        ∧ overlap_metric (([⟨0, 0, 1, 1, 0⟩, ⟨3/2, 3/2, 1, 1, 0⟩, ⟨1/2, 1/2, 1, 1, 0⟩, ⟨1, 1, 1, 1, 0⟩, ⟨10, 0, 1, 1, 0⟩] : List Blob).getD 0 default)
        (([⟨0, 0, 1, 1, 0⟩, ⟨3/2, 3/2, 1, 1, 0⟩, ⟨1/2, 1/2, 1, 1, 0⟩, ⟨1, 1, 1, 1, 0⟩, ⟨10, 0, 1, 1, 0⟩] : List Blob).getD 4 default) ≤ 1)
      = false := by
    refine decide_eq_false ?_
    intro hcon
    have hlt : min_merge_overlap 1 < overlap_metric ⟨0, 0, 1, 1, 0⟩ ⟨10, 0, 1, 1, 0⟩ := hcon.1
    rw [hm04] at hlt
    exact absurd hlt (not_lt.mpr min_merge_overlap_one_pos.le)
  have p12 : decide (min_merge_overlap 1 < overlap_metric
        (([⟨0, 0, 1, 1, 0⟩, ⟨3/2, 3/2, 1, 1, 0⟩, ⟨1/2, 1/2, 1, 1, 0⟩, ⟨1, 1, 1, 1, 0⟩, ⟨10, 0, 1, 1, 0⟩] : List Blob).getD 1 default)
        (([⟨0, 0, 1, 1, 0⟩, ⟨3/2, 3/2, 1, 1, 0⟩, ⟨1/2, 1/2, 1, 1, 0⟩, ⟨1, 1, 1, 1, 0⟩, ⟨10, 0, 1, 1, 0⟩] : List Blob).getD 2 default)
        ∧ overlap_metric (([⟨0, 0, 1, 1, 0⟩, ⟨3/2, 3/2, 1, 1, 0⟩, ⟨1/2, 1/2, 1, 1, 0⟩, ⟨1, 1, 1, 1, 0⟩, ⟨10, 0, 1, 1, 0⟩] : List Blob).getD 1 default)
        (([⟨0, 0, 1, 1, 0⟩, ⟨3/2, 3/2, 1, 1, 0⟩, ⟨1/2, 1/2, 1, 1, 0⟩, ⟨1, 1, 1, 1, 0⟩, ⟨10, 0, 1, 1, 0⟩] : List Blob).getD 2 default) ≤ 1)
      = false := by
    refine decide_eq_false ?_
    intro hcon
    have hlt : min_merge_overlap 1 < overlap_metric ⟨3/2, 3/2, 1, 1, 0⟩ ⟨1/2, 1/2, 1, 1, 0⟩ := hcon.1
    exact absurd hlt (not_lt.mpr hm12.2)
  have p13 : decide (min_merge_overlap 1 < overlap_metric
        (([⟨0, 0, 1, 1, 0⟩, ⟨3/2, 3/2, 1, 1, 0⟩, ⟨1/2, 1/2, 1, 1, 0⟩, ⟨1, 1, 1, 1, 0⟩, ⟨10, 0, 1, 1, 0⟩] : List Blob).getD 1 default)
        (([⟨0, 0, 1, 1, 0⟩, ⟨3/2, 3/2, 1, 1, 0⟩, ⟨1/2, 1/2, 1, 1, 0⟩, ⟨1, 1, 1, 1, 0⟩, ⟨10, 0, 1, 1, 0⟩] : List Blob).getD 3 default)
        ∧ overlap_metric (([⟨0, 0, 1, 1, 0⟩, ⟨3/2, 3/2, 1, 1, 0⟩, ⟨1/2, 1/2, 1, 1, 0⟩, ⟨1, 1, 1, 1, 0⟩, ⟨10, 0, 1, 1, 0⟩] : List Blob).getD 1 default)
        (([⟨0, 0, 1, 1, 0⟩, ⟨3/2, 3/2, 1, 1, 0⟩, ⟨1/2, 1/2, 1, 1, 0⟩, ⟨1, 1, 1, 1, 0⟩, ⟨10, 0, 1, 1, 0⟩] : List Blob).getD 3 default) ≤ 1)
      = true := by
    refine decide_eq_true ?_
    show min_merge_overlap 1 < overlap_metric ⟨3/2, 3/2, 1, 1, 0⟩ ⟨1, 1, 1, 1, 0⟩
      ∧ overlap_metric ⟨3/2, 3/2, 1, 1, 0⟩ ⟨1, 1, 1, 1, 0⟩ ≤ 1
    exact ⟨hm13.1, hm13.2⟩
  have p14 : decide (min_merge_overlap 1 < overlap_metric
        (([⟨0, 0, 1, 1, 0⟩, ⟨3/2, 3/2, 1, 1, 0⟩, ⟨1/2, 1/2, 1, 1, 0⟩, ⟨1, 1, 1, 1, 0⟩, ⟨10, 0, 1, 1, 0⟩] : List Blob).getD 1 default)
        (([⟨0, 0, 1, 1, 0⟩, ⟨3/2, 3/2, 1, 1, 0⟩, ⟨1/2, 1/2, 1, 1, 0⟩, ⟨1, 1, 1, 1, 0⟩, ⟨10, 0, 1, 1, 0⟩] : List Blob).getD 4 default)
        ∧ overlap_metric (([⟨0, 0, 1, 1, 0⟩, ⟨3/2, 3/2, 1, 1, 0⟩, ⟨1/2, 1/2, 1, 1, 0⟩, ⟨1, 1, 1, 1, 0⟩, ⟨10, 0, 1, 1, 0⟩] : List Blob).getD 1 default)
        (([⟨0, 0, 1, 1, 0⟩, ⟨3/2, 3/2, 1, 1, 0⟩, ⟨1/2, 1/2, 1, 1, 0⟩, ⟨1, 1, 1, 1, 0⟩, ⟨10, 0, 1, 1, 0⟩] : List Blob).getD 4 default) ≤ 1)
      = false := by
    refine decide_eq_false ?_
    intro hcon
    have hlt : min_merge_overlap 1 < overlap_metric ⟨3/2, 3/2, 1, 1, 0⟩ ⟨10, 0, 1, 1, 0⟩ := hcon.1
    rw [hm14] at hlt
    exact absurd hlt (not_lt.mpr min_merge_overlap_one_pos.le)
  have p23 : decide (min_merge_overlap 1 < overlap_metric
        (([⟨0, 0, 1, 1, 0⟩, ⟨3/2, 3/2, 1, 1, 0⟩, ⟨1/2, 1/2, 1, 1, 0⟩, ⟨1, 1, 1, 1, 0⟩, ⟨10, 0, 1, 1, 0⟩] : List Blob).getD 2 default)
        (([⟨0, 0, 1, 1, 0⟩, ⟨3/2, 3/2, 1, 1, 0⟩, ⟨1/2, 1/2, 1, 1, 0⟩, ⟨1, 1, 1, 1, 0⟩, ⟨10, 0, 1, 1, 0⟩] : List Blob).getD 3 default)
        ∧ overlap_metric (([⟨0, 0, 1, 1, 0⟩, ⟨3/2, 3/2, 1, 1, 0⟩, ⟨1/2, 1/2, 1, 1, 0⟩, ⟨1, 1, 1, 1, 0⟩, ⟨10, 0, 1, 1, 0⟩] : List Blob).getD 2 default)
        (([⟨0, 0, 1, 1, 0⟩, ⟨3/2, 3/2, 1, 1, 0⟩, ⟨1/2, 1/2, 1, 1, 0⟩, ⟨1, 1, 1, 1, 0⟩, ⟨10, 0, 1, 1, 0⟩] : List Blob).getD 3 default) ≤ 1)
      = true := by
    refine decide_eq_true ?_
    show min_merge_overlap 1 < overlap_metric ⟨1/2, 1/2, 1, 1, 0⟩ ⟨1, 1, 1, 1, 0⟩
      ∧ overlap_metric ⟨1/2, 1/2, 1, 1, 0⟩ ⟨1, 1, 1, 1, 0⟩ ≤ 1
    exact ⟨hm23.1, hm23.2⟩
  have p24 : decide (min_merge_overlap 1 < overlap_metric
        (([⟨0, 0, 1, 1, 0⟩, ⟨3/2, 3/2, 1, 1, 0⟩, ⟨1/2, 1/2, 1, 1, 0⟩, ⟨1, 1, 1, 1, 0⟩, ⟨10, 0, 1, 1, 0⟩] : List Blob).getD 2 default)
        (([⟨0, 0, 1, 1, 0⟩, ⟨3/2, 3/2, 1, 1, 0⟩, ⟨1/2, 1/2, 1, 1, 0⟩, ⟨1, 1, 1, 1, 0⟩, ⟨10, 0, 1, 1, 0⟩] : List Blob).getD 4 default)
        ∧ overlap_metric (([⟨0, 0, 1, 1, 0⟩, ⟨3/2, 3/2, 1, 1, 0⟩, ⟨1/2, 1/2, 1, 1, 0⟩, ⟨1, 1, 1, 1, 0⟩, ⟨10, 0, 1, 1, 0⟩] : List Blob).getD 2 default)
        (([⟨0, 0, 1, 1, 0⟩, ⟨3/2, 3/2, 1, 1, 0⟩, ⟨1/2, 1/2, 1, 1, 0⟩, ⟨1, 1, 1, 1, 0⟩, ⟨10, 0, 1, 1, 0⟩] : List Blob).getD 4 default) ≤ 1)
      = false := by
    refine decide_eq_false ?_
    intro hcon
    have hlt : min_merge_overlap 1 < overlap_metric ⟨1/2, 1/2, 1, 1, 0⟩ ⟨10, 0, 1, 1, 0⟩ := hcon.1
    rw [hm24] at hlt
    exact absurd hlt (not_lt.mpr min_merge_overlap_one_pos.le)
  have p34 : decide (min_merge_overlap 1 < overlap_metric
        (([⟨0, 0, 1, 1, 0⟩, ⟨3/2, 3/2, 1, 1, 0⟩, ⟨1/2, 1/2, 1, 1, 0⟩, ⟨1, 1, 1, 1, 0⟩, ⟨10, 0, 1, 1, 0⟩] : List Blob).getD 3 default)
        (([⟨0, 0, 1, 1, 0⟩, ⟨3/2, 3/2, 1, 1, 0⟩, ⟨1/2, 1/2, 1, 1, 0⟩, ⟨1, 1, 1, 1, 0⟩, ⟨10, 0, 1, 1, 0⟩] : List Blob).getD 4 default)
        ∧ overlap_metric (([⟨0, 0, 1, 1, 0⟩, ⟨3/2, 3/2, 1, 1, 0⟩, ⟨1/2, 1/2, 1, 1, 0⟩, ⟨1, 1, 1, 1, 0⟩, ⟨10, 0, 1, 1, 0⟩] : List Blob).getD 3 default)
        (([⟨0, 0, 1, 1, 0⟩, ⟨3/2, 3/2, 1, 1, 0⟩, ⟨1/2, 1/2, 1, 1, 0⟩, ⟨1, 1, 1, 1, 0⟩, ⟨10, 0, 1, 1, 0⟩] : List Blob).getD 4 default) ≤ 1)
      = false := by
    refine decide_eq_false ?_
    intro hcon
    have hlt : min_merge_overlap 1 < overlap_metric ⟨1, 1, 1, 1, 0⟩ ⟨10, 0, 1, 1, 0⟩ := hcon.1
    rw [hm34] at hlt
    exact absurd hlt (not_lt.mpr min_merge_overlap_one_pos.le)
  have hlen : ([⟨0, 0, 1, 1, 0⟩, ⟨3/2, 3/2, 1, 1, 0⟩, ⟨1/2, 1/2, 1, 1, 0⟩, ⟨1, 1, 1, 1, 0⟩, ⟨10, 0, 1, 1, 0⟩] : List Blob).length = 5 := rfl
  have hbandp : band_pairs 1 [⟨0, 0, 1, 1, 0⟩, ⟨3/2, 3/2, 1, 1, 0⟩, ⟨1/2, 1/2, 1, 1, 0⟩, ⟨1, 1, 1, 1, 0⟩, ⟨10, 0, 1, 1, 0⟩] = [(0, 2), (1, 3), (2, 3)] := by
    simp only [band_pairs, hlen, upperPairs_five, List.filter_cons, List.filter_nil,
      p01, p02, p03, p04, p12, p13, p14, p23, p24, p34]
    simp
  have hstep1 : mergeStep (([⟨0, 0, 1, 1, 0⟩, ⟨3/2, 3/2, 1, 1, 0⟩, ⟨1/2, 1/2, 1, 1, 0⟩, ⟨1, 1, 1, 1, 0⟩, ⟨10, 0, 1, 1, 0⟩] : List Blob),
      ([] : List Blob)) (0, 2)
      = ([⟨0, 0, -1, -1, 0⟩, ⟨3/2, 3/2, 1, 1, 0⟩, ⟨1/2, 1/2, -1, -1, 0⟩, ⟨1, 1, 1, 1, 0⟩, ⟨10, 0, 1, 1, 0⟩], [merge_to_ellipse ⟨0, 0, 1, 1, 0⟩ ⟨1/2, 1/2, 1, 1, 0⟩]) := by
    simp only [mergeStep]
    split_ifs with hcond
    · rfl
    · exact absurd ⟨rfl, by push_neg; exact ⟨rfl, rfl⟩⟩ hcond
  have hstep2 : mergeStep (([⟨0, 0, -1, -1, 0⟩, ⟨3/2, 3/2, 1, 1, 0⟩, ⟨1/2, 1/2, -1, -1, 0⟩, ⟨1, 1, 1, 1, 0⟩, ⟨10, 0, 1, 1, 0⟩] : List Blob),
      ([merge_to_ellipse ⟨0, 0, 1, 1, 0⟩ ⟨1/2, 1/2, 1, 1, 0⟩] : List Blob)) (1, 3)
      = ([⟨0, 0, -1, -1, 0⟩, ⟨3/2, 3/2, -1, -1, 0⟩, ⟨1/2, 1/2, -1, -1, 0⟩, ⟨1, 1, -1, -1, 0⟩, ⟨10, 0, 1, 1, 0⟩], [merge_to_ellipse ⟨0, 0, 1, 1, 0⟩ ⟨1/2, 1/2, 1, 1, 0⟩, merge_to_ellipse ⟨3/2, 3/2, 1, 1, 0⟩ ⟨1, 1, 1, 1, 0⟩]) := by
    simp only [mergeStep]
    split_ifs with hcond
    · rfl
    · exact absurd ⟨rfl, by push_neg; exact ⟨rfl, rfl⟩⟩ hcond
  have hstep3 : mergeStep (([⟨0, 0, -1, -1, 0⟩, ⟨3/2, 3/2, -1, -1, 0⟩, ⟨1/2, 1/2, -1, -1, 0⟩, ⟨1, 1, -1, -1, 0⟩, ⟨10, 0, 1, 1, 0⟩] : List Blob),
      ([merge_to_ellipse ⟨0, 0, 1, 1, 0⟩ ⟨1/2, 1/2, 1, 1, 0⟩, merge_to_ellipse ⟨3/2, 3/2, 1, 1, 0⟩ ⟨1, 1, 1, 1, 0⟩] : List Blob)) (2, 3)
      = ([⟨0, 0, -1, -1, 0⟩, ⟨3/2, 3/2, -1, -1, 0⟩, ⟨1/2, 1/2, -1, -1, 0⟩, ⟨1, 1, -1, -1, 0⟩, ⟨10, 0, 1, 1, 0⟩], [merge_to_ellipse ⟨0, 0, 1, 1, 0⟩ ⟨1/2, 1/2, 1, 1, 0⟩, merge_to_ellipse ⟨3/2, 3/2, 1, 1, 0⟩ ⟨1, 1, 1, 1, 0⟩, merge_to_ellipse ⟨1/2, 1/2, -1, -1, 0⟩ ⟨1, 1, -1, -1, 0⟩]) := by
    simp only [mergeStep]
    split_ifs with hcond
    · rfl
    · exact absurd ⟨rfl, by push_neg; exact ⟨rfl, rfl⟩⟩ hcond
  have hsurv : (([⟨0, 0, -1, -1, 0⟩, ⟨3/2, 3/2, -1, -1, 0⟩, ⟨1/2, 1/2, -1, -1, 0⟩, ⟨1, 1, -1, -1, 0⟩, ⟨10, 0, 1, 1, 0⟩] : List Blob).filter
      fun b => decide (0 < b.major)) = [⟨10, 0, 1, 1, 0⟩] := by
    simp only [List.filter_cons, List.filter_nil, decide_eq_true_eq]
    simp only [if_neg (show ¬(0 : ℝ) < -1 by norm_num),
      if_pos (show (0 : ℝ) < 1 by norm_num)]
  refine ⟨?_, rfl, ?_⟩
  · simp only [merge_blobs, hbandp, List.foldl_cons, List.foldl_nil, hstep1,
      hstep2, hstep3, hsurv]
    rw [if_neg (by simp)]
    simp
  · show (-1 : ℝ) + blobDist (⟨1/2, 1/2, -1, -1, 0⟩ : Blob) ⟨1, 1, -1, -1, 0⟩ / 2 < 0
    have hdg : blobDist (⟨1/2, 1/2, -1, -1, 0⟩ : Blob) ⟨1, 1, -1, -1, 0⟩
        = Real.sqrt (1/2) := blobDist_eval_sqrt _ _ (1/2) (by norm_num)
    have h2 : Real.sqrt (1/2) < 2 := (Real.sqrt_lt' (by norm_num)).mpr (by norm_num)
    rw [hdg]
    linarith

/-- C7: the sentinel-reuse slip of `_merge_blobs` propagates to the
final list of `blob_log`: for the scale-space maxima
`(0,0), (3,3), (1,1), (2,2), (20,0)` at the single scale `sigma = sqrt 2`
(blob radius 2), merging consumes indices 0..3 and then re-merges the
two sentinel rows; the pruning stage (here with threshold 2, which no
pairwise overlap can reach, every post-merge pair being dispatched to
the pixel kernel whose value is at most 1) removes nothing, so the
returned detection list contains an entry with semi-minor -1 < 0,
violating the invariant `semi_major >= semi_minor >= 0`. -/
theorem C7_invariant_violated :
    blob_log_post [Real.sqrt 2] 2 1
      [(0, 0, 0), (3, 3, 0), (1, 1, 0), (2, 2, 0), (20, 0, 0)] ()
      = .ok (([⟨20, 0, 2, 2, 0⟩, merge_to_ellipse ⟨0, 0, 2, 2, 0⟩ ⟨1, 1, 2, 2, 0⟩, merge_to_ellipse ⟨3, 3, 2, 2, 0⟩ ⟨2, 2, 2, 2, 0⟩, merge_to_ellipse ⟨1, 1, -1, -1, 0⟩ ⟨2, 2, -1, -1, 0⟩] : List Blob), ())
    ∧ (merge_to_ellipse ⟨1, 1, -1, -1, 0⟩ ⟨2, 2, -1, -1, 0⟩).minor < 0 := by
  classical
  have h22 : Real.sqrt 2 * Real.sqrt 2 = 2 := Real.mul_self_sqrt (by norm_num)
  have hmax : maxima_to_blobs [Real.sqrt 2]
      [(0, 0, 0), (3, 3, 0), (1, 1, 0), (2, 2, 0), (20, 0, 0)]
      = ([⟨0, 0, 2, 2, 0⟩, ⟨3, 3, 2, 2, 0⟩, ⟨1, 1, 2, 2, 0⟩, ⟨2, 2, 2, 2, 0⟩, ⟨20, 0, 2, 2, 0⟩] : List Blob) := by
    simp only [maxima_to_blobs, List.map_cons, List.map_nil]
    norm_num [h22]
  have hd01 : blobDist (⟨0, 0, 2, 2, 0⟩ : Blob) ⟨3, 3, 2, 2, 0⟩ = Real.sqrt (18) :=
    blobDist_eval_sqrt _ _ (18) (by norm_num)
  have hd02 : blobDist (⟨0, 0, 2, 2, 0⟩ : Blob) ⟨1, 1, 2, 2, 0⟩ = Real.sqrt (2) :=
    blobDist_eval_sqrt _ _ (2) (by norm_num)
  have hd03 : blobDist (⟨0, 0, 2, 2, 0⟩ : Blob) ⟨2, 2, 2, 2, 0⟩ = Real.sqrt (8) :=
    blobDist_eval_sqrt _ _ (8) (by norm_num)
  have hd04 : blobDist (⟨0, 0, 2, 2, 0⟩ : Blob) ⟨20, 0, 2, 2, 0⟩ = 20 :=
    blobDist_eval _ _ 20 (by norm_num) (by norm_num)
  have hd12 : blobDist (⟨3, 3, 2, 2, 0⟩ : Blob) ⟨1, 1, 2, 2, 0⟩ = Real.sqrt (8) :=
    blobDist_eval_sqrt _ _ (8) (by norm_num)
  have hd13 : blobDist (⟨3, 3, 2, 2, 0⟩ : Blob) ⟨2, 2, 2, 2, 0⟩ = Real.sqrt (2) :=
    blobDist_eval_sqrt _ _ (2) (by norm_num)
  have hd14 : blobDist (⟨3, 3, 2, 2, 0⟩ : Blob) ⟨20, 0, 2, 2, 0⟩ = Real.sqrt (298) :=
    blobDist_eval_sqrt _ _ (298) (by norm_num)
  have hd23 : blobDist (⟨1, 1, 2, 2, 0⟩ : Blob) ⟨2, 2, 2, 2, 0⟩ = Real.sqrt (2) :=
    blobDist_eval_sqrt _ _ (2) (by norm_num)
  have hd24 : blobDist (⟨1, 1, 2, 2, 0⟩ : Blob) ⟨20, 0, 2, 2, 0⟩ = Real.sqrt (362) :=
    blobDist_eval_sqrt _ _ (362) (by norm_num)
  have hd34 : blobDist (⟨2, 2, 2, 2, 0⟩ : Blob) ⟨20, 0, 2, 2, 0⟩ = Real.sqrt (328) :=
    blobDist_eval_sqrt _ _ (328) (by norm_num)
  have hm01 : overlap_metric (⟨0, 0, 2, 2, 0⟩ : Blob) ⟨3, 3, 2, 2, 0⟩ = 0 :=
    overlap_metric_of_far _ _ rfl rfl
      (by rw [hd01]; exact (Real.lt_sqrt (by norm_num)).mpr (by norm_num))
  have hm02 := metric_band_equal_radii ⟨0, 0, 2, 2, 0⟩ ⟨1, 1, 2, 2, 0⟩ 2 rfl rfl rfl rfl
    (by norm_num) (by rw [hd02]; exact Real.sqrt_pos.mpr (by norm_num))
    (by rw [hd02]; exact (Real.sqrt_lt' (by norm_num)).mpr (by norm_num))
  have hd03x : blobDist (⟨0, 0, 2, 2, 0⟩ : Blob) ⟨2, 2, 2, 2, 0⟩ = Real.sqrt 2 * 2 := by
    rw [hd03, show (8 : ℝ) = 2 * 2 ^ 2 by norm_num,
      Real.sqrt_mul (by norm_num : (0:ℝ) ≤ 2), Real.sqrt_sq (by norm_num : (0:ℝ) ≤ 2)]
  have hm03 := metric_sqrt2_equal_radii ⟨0, 0, 2, 2, 0⟩ ⟨2, 2, 2, 2, 0⟩ 2 rfl rfl rfl rfl
    (by norm_num) hd03x
  have hm04 : overlap_metric (⟨0, 0, 2, 2, 0⟩ : Blob) ⟨20, 0, 2, 2, 0⟩ = 0 :=
    overlap_metric_of_far _ _ rfl rfl (by rw [hd04]; norm_num)
  have hd12x : blobDist (⟨3, 3, 2, 2, 0⟩ : Blob) ⟨1, 1, 2, 2, 0⟩ = Real.sqrt 2 * 2 := by
    rw [hd12, show (8 : ℝ) = 2 * 2 ^ 2 by norm_num,
      Real.sqrt_mul (by norm_num : (0:ℝ) ≤ 2), Real.sqrt_sq (by norm_num : (0:ℝ) ≤ 2)]
  have hm12 := metric_sqrt2_equal_radii ⟨3, 3, 2, 2, 0⟩ ⟨1, 1, 2, 2, 0⟩ 2 rfl rfl rfl rfl
    (by norm_num) hd12x
  have hm13 := metric_band_equal_radii ⟨3, 3, 2, 2, 0⟩ ⟨2, 2, 2, 2, 0⟩ 2 rfl rfl rfl rfl
    (by norm_num) (by rw [hd13]; exact Real.sqrt_pos.mpr (by norm_num))
    (by rw [hd13]; exact (Real.sqrt_lt' (by norm_num)).mpr (by norm_num))
  have hm14 : overlap_metric (⟨3, 3, 2, 2, 0⟩ : Blob) ⟨20, 0, 2, 2, 0⟩ = 0 :=
    overlap_metric_of_far _ _ rfl rfl
      (by rw [hd14]; exact (Real.lt_sqrt (by norm_num)).mpr (by norm_num))
  have hm23 := metric_band_equal_radii ⟨1, 1, 2, 2, 0⟩ ⟨2, 2, 2, 2, 0⟩ 2 rfl rfl rfl rfl
    (by norm_num) (by rw [hd23]; exact Real.sqrt_pos.mpr (by norm_num))
    (by rw [hd23]; exact (Real.sqrt_lt' (by norm_num)).mpr (by norm_num))
  have hm24 : overlap_metric (⟨1, 1, 2, 2, 0⟩ : Blob) ⟨20, 0, 2, 2, 0⟩ = 0 :=
    overlap_metric_of_far _ _ rfl rfl
      (by rw [hd24]; exact (Real.lt_sqrt (by norm_num)).mpr (by norm_num))
  have hm34 : overlap_metric (⟨2, 2, 2, 2, 0⟩ : Blob) ⟨20, 0, 2, 2, 0⟩ = 0 :=
    overlap_metric_of_far _ _ rfl rfl
      (by rw [hd34]; exact (Real.lt_sqrt (by norm_num)).mpr (by norm_num))
  have p01 : decide (min_merge_overlap 1 < overlap_metric
        (([⟨0, 0, 2, 2, 0⟩, ⟨3, 3, 2, 2, 0⟩, ⟨1, 1, 2, 2, 0⟩, ⟨2, 2, 2, 2, 0⟩, ⟨20, 0, 2, 2, 0⟩] : List Blob).getD 0 default)
        (([⟨0, 0, 2, 2, 0⟩, ⟨3, 3, 2, 2, 0⟩, ⟨1, 1, 2, 2, 0⟩, ⟨2, 2, 2, 2, 0⟩, ⟨20, 0, 2, 2, 0⟩] : List Blob).getD 1 default)
        ∧ overlap_metric (([⟨0, 0, 2, 2, 0⟩, ⟨3, 3, 2, 2, 0⟩, ⟨1, 1, 2, 2, 0⟩, ⟨2, 2, 2, 2, 0⟩, ⟨20, 0, 2, 2, 0⟩] : List Blob).getD 0 default)
        (([⟨0, 0, 2, 2, 0⟩, ⟨3, 3, 2, 2, 0⟩, ⟨1, 1, 2, 2, 0⟩, ⟨2, 2, 2, 2, 0⟩, ⟨20, 0, 2, 2, 0⟩] : List Blob).getD 1 default) ≤ 1)
      = false := by
    refine decide_eq_false ?_
    intro hcon
    have hlt : min_merge_overlap 1 < overlap_metric ⟨0, 0, 2, 2, 0⟩ ⟨3, 3, 2, 2, 0⟩ := hcon.1
    rw [hm01] at hlt
    exact absurd hlt (not_lt.mpr min_merge_overlap_one_pos.le)
  have p02 : decide (min_merge_overlap 1 < overlap_metric
        (([⟨0, 0, 2, 2, 0⟩, ⟨3, 3, 2, 2, 0⟩, ⟨1, 1, 2, 2, 0⟩, ⟨2, 2, 2, 2, 0⟩, ⟨20, 0, 2, 2, 0⟩] : List Blob).getD 0 default)
        (([⟨0, 0, 2, 2, 0⟩, ⟨3, 3, 2, 2, 0⟩, ⟨1, 1, 2, 2, 0⟩, ⟨2, 2, 2, 2, 0⟩, ⟨20, 0, 2, 2, 0⟩] : List Blob).getD 2 default)
        ∧ overlap_metric (([⟨0, 0, 2, 2, 0⟩, ⟨3, 3, 2, 2, 0⟩, ⟨1, 1, 2, 2, 0⟩, ⟨2, 2, 2, 2, 0⟩, ⟨20, 0, 2, 2, 0⟩] : List Blob).getD 0 default)
        (([⟨0, 0, 2, 2, 0⟩, ⟨3, 3, 2, 2, 0⟩, ⟨1, 1, 2, 2, 0⟩, ⟨2, 2, 2, 2, 0⟩, ⟨20, 0, 2, 2, 0⟩] : List Blob).getD 2 default) ≤ 1)
      = true := by
    refine decide_eq_true ?_
    show min_merge_overlap 1 < overlap_metric ⟨0, 0, 2, 2, 0⟩ ⟨1, 1, 2, 2, 0⟩
      ∧ overlap_metric ⟨0, 0, 2, 2, 0⟩ ⟨1, 1, 2, 2, 0⟩ ≤ 1
    exact ⟨hm02.1, hm02.2⟩
  have p03 : decide (min_merge_overlap 1 < overlap_metric
        (([⟨0, 0, 2, 2, 0⟩, ⟨3, 3, 2, 2, 0⟩, ⟨1, 1, 2, 2, 0⟩, ⟨2, 2, 2, 2, 0⟩, ⟨20, 0, 2, 2, 0⟩] : List Blob).getD 0 default)
        (([⟨0, 0, 2, 2, 0⟩, ⟨3, 3, 2, 2, 0⟩, ⟨1, 1, 2, 2, 0⟩, ⟨2, 2, 2, 2, 0⟩, ⟨20, 0, 2, 2, 0⟩] : List Blob).getD 3 default)
        ∧ overlap_metric (([⟨0, 0, 2, 2, 0⟩, ⟨3, 3, 2, 2, 0⟩, ⟨1, 1, 2, 2, 0⟩, ⟨2, 2, 2, 2, 0⟩, ⟨20, 0, 2, 2, 0⟩] : List Blob).getD 0 default)
        (([⟨0, 0, 2, 2, 0⟩, ⟨3, 3, 2, 2, 0⟩, ⟨1, 1, 2, 2, 0⟩, ⟨2, 2, 2, 2, 0⟩, ⟨20, 0, 2, 2, 0⟩] : List Blob).getD 3 default) ≤ 1)
      = false := by
    refine decide_eq_false ?_
    intro hcon
    have hlt : min_merge_overlap 1 < overlap_metric ⟨0, 0, 2, 2, 0⟩ ⟨2, 2, 2, 2, 0⟩ := hcon.1
    exact absurd hlt (not_lt.mpr hm03.2)
  have p04 : decide (min_merge_overlap 1 < overlap_metric
        (([⟨0, 0, 2, 2, 0⟩, ⟨3, 3, 2, 2, 0⟩, ⟨1, 1, 2, 2, 0⟩, ⟨2, 2, 2, 2, 0⟩, ⟨20, 0, 2, 2, 0⟩] : List Blob).getD 0 default)
        (([⟨0, 0, 2, 2, 0⟩, ⟨3, 3, 2, 2, 0⟩, ⟨1, 1, 2, 2, 0⟩, ⟨2, 2, 2, 2, 0⟩, ⟨20, 0, 2, 2, 0⟩] : List Blob).getD 4 default)
        ∧ overlap_metric (([⟨0, 0, 2, 2, 0⟩, ⟨3, 3, 2, 2, 0⟩, ⟨1, 1, 2, 2, 0⟩, ⟨2, 2, 2, 2, 0⟩, ⟨20, 0, 2, 2, 0⟩] : List Blob).getD 0 default)
        (([⟨0, 0, 2, 2, 0⟩, ⟨3, 3, 2, 2, 0⟩, ⟨1, 1, 2, 2, 0⟩, ⟨2, 2, 2, 2, 0⟩, ⟨20, 0, 2, 2, 0⟩] : List Blob).getD 4 default) ≤ 1)
      = false := by
    refine decide_eq_false ?_
    intro hcon
    have hlt : min_merge_overlap 1 < overlap_metric ⟨0, 0, 2, 2, 0⟩ ⟨20, 0, 2, 2, 0⟩ := hcon.1
    rw [hm04] at hlt
    exact absurd hlt (not_lt.mpr min_merge_overlap_one_pos.le)
  have p12 : decide (min_merge_overlap 1 < overlap_metric
        (([⟨0, 0, 2, 2, 0⟩, ⟨3, 3, 2, 2, 0⟩, ⟨1, 1, 2, 2, 0⟩, ⟨2, 2, 2, 2, 0⟩, ⟨20, 0, 2, 2, 0⟩] : List Blob).getD 1 default)
        (([⟨0, 0, 2, 2, 0⟩, ⟨3, 3, 2, 2, 0⟩, ⟨1, 1, 2, 2, 0⟩, ⟨2, 2, 2, 2, 0⟩, ⟨20, 0, 2, 2, 0⟩] : List Blob).getD 2 default)
        ∧ overlap_metric (([⟨0, 0, 2, 2, 0⟩, ⟨3, 3, 2, 2, 0⟩, ⟨1, 1, 2, 2, 0⟩, ⟨2, 2, 2, 2, 0⟩, ⟨20, 0, 2, 2, 0⟩] : List Blob).getD 1 default)
        (([⟨0, 0, 2, 2, 0⟩, ⟨3, 3, 2, 2, 0⟩, ⟨1, 1, 2, 2, 0⟩, ⟨2, 2, 2, 2, 0⟩, ⟨20, 0, 2, 2, 0⟩] : List Blob).getD 2 default) ≤ 1)
      = false := by
    refine decide_eq_false ?_
    intro hcon
    have hlt : min_merge_overlap 1 < overlap_metric ⟨3, 3, 2, 2, 0⟩ ⟨1, 1, 2, 2, 0⟩ := hcon.1
    exact absurd hlt (not_lt.mpr hm12.2)
  have p13 : decide (min_merge_overlap 1 < overlap_metric
        (([⟨0, 0, 2, 2, 0⟩, ⟨3, 3, 2, 2, 0⟩, ⟨1, 1, 2, 2, 0⟩, ⟨2, 2, 2, 2, 0⟩, ⟨20, 0, 2, 2, 0⟩] : List Blob).getD 1 default)
        (([⟨0, 0, 2, 2, 0⟩, ⟨3, 3, 2, 2, 0⟩, ⟨1, 1, 2, 2, 0⟩, ⟨2, 2, 2, 2, 0⟩, ⟨20, 0, 2, 2, 0⟩] : List Blob).getD 3 default)
        ∧ overlap_metric (([⟨0, 0, 2, 2, 0⟩, ⟨3, 3, 2, 2, 0⟩, ⟨1, 1, 2, 2, 0⟩, ⟨2, 2, 2, 2, 0⟩, ⟨20, 0, 2, 2, 0⟩] : List Blob).getD 1 default)
        (([⟨0, 0, 2, 2, 0⟩, ⟨3, 3, 2, 2, 0⟩, ⟨1, 1, 2, 2, 0⟩, ⟨2, 2, 2, 2, 0⟩, ⟨20, 0, 2, 2, 0⟩] : List Blob).getD 3 default) ≤ 1)
      = true := by
    refine decide_eq_true ?_
    show min_merge_overlap 1 < overlap_metric ⟨3, 3, 2, 2, 0⟩ ⟨2, 2, 2, 2, 0⟩
      ∧ overlap_metric ⟨3, 3, 2, 2, 0⟩ ⟨2, 2, 2, 2, 0⟩ ≤ 1
    exact ⟨hm13.1, hm13.2⟩
  have p14 : decide (min_merge_overlap 1 < overlap_metric
        (([⟨0, 0, 2, 2, 0⟩, ⟨3, 3, 2, 2, 0⟩, ⟨1, 1, 2, 2, 0⟩, ⟨2, 2, 2, 2, 0⟩, ⟨20, 0, 2, 2, 0⟩] : List Blob).getD 1 default)
        (([⟨0, 0, 2, 2, 0⟩, ⟨3, 3, 2, 2, 0⟩, ⟨1, 1, 2, 2, 0⟩, ⟨2, 2, 2, 2, 0⟩, ⟨20, 0, 2, 2, 0⟩] : List Blob).getD 4 default)
        ∧ overlap_metric (([⟨0, 0, 2, 2, 0⟩, ⟨3, 3, 2, 2, 0⟩, ⟨1, 1, 2, 2, 0⟩, ⟨2, 2, 2, 2, 0⟩, ⟨20, 0, 2, 2, 0⟩] : List Blob).getD 1 default)
        (([⟨0, 0, 2, 2, 0⟩, ⟨3, 3, 2, 2, 0⟩, ⟨1, 1, 2, 2, 0⟩, ⟨2, 2, 2, 2, 0⟩, ⟨20, 0, 2, 2, 0⟩] : List Blob).getD 4 default) ≤ 1)
      = false := by
    refine decide_eq_false ?_
    intro hcon
    have hlt : min_merge_overlap 1 < overlap_metric ⟨3, 3, 2, 2, 0⟩ ⟨20, 0, 2, 2, 0⟩ := hcon.1
    rw [hm14] at hlt
    exact absurd hlt (not_lt.mpr min_merge_overlap_one_pos.le)
  have p23 : decide (min_merge_overlap 1 < overlap_metric
        (([⟨0, 0, 2, 2, 0⟩, ⟨3, 3, 2, 2, 0⟩, ⟨1, 1, 2, 2, 0⟩, ⟨2, 2, 2, 2, 0⟩, ⟨20, 0, 2, 2, 0⟩] : List Blob).getD 2 default)
        (([⟨0, 0, 2, 2, 0⟩, ⟨3, 3, 2, 2, 0⟩, ⟨1, 1, 2, 2, 0⟩, ⟨2, 2, 2, 2, 0⟩, ⟨20, 0, 2, 2, 0⟩] : List Blob).getD 3 default)
        ∧ overlap_metric (([⟨0, 0, 2, 2, 0⟩, ⟨3, 3, 2, 2, 0⟩, ⟨1, 1, 2, 2, 0⟩, ⟨2, 2, 2, 2, 0⟩, ⟨20, 0, 2, 2, 0⟩] : List Blob).getD 2 default)
        (([⟨0, 0, 2, 2, 0⟩, ⟨3, 3, 2, 2, 0⟩, ⟨1, 1, 2, 2, 0⟩, ⟨2, 2, 2, 2, 0⟩, ⟨20, 0, 2, 2, 0⟩] : List Blob).getD 3 default) ≤ 1)
      = true := by
    refine decide_eq_true ?_
    show min_merge_overlap 1 < overlap_metric ⟨1, 1, 2, 2, 0⟩ ⟨2, 2, 2, 2, 0⟩
      ∧ overlap_metric ⟨1, 1, 2, 2, 0⟩ ⟨2, 2, 2, 2, 0⟩ ≤ 1
    exact ⟨hm23.1, hm23.2⟩
  have p24 : decide (min_merge_overlap 1 < overlap_metric
        (([⟨0, 0, 2, 2, 0⟩, ⟨3, 3, 2, 2, 0⟩, ⟨1, 1, 2, 2, 0⟩, ⟨2, 2, 2, 2, 0⟩, ⟨20, 0, 2, 2, 0⟩] : List Blob).getD 2 default)
        (([⟨0, 0, 2, 2, 0⟩, ⟨3, 3, 2, 2, 0⟩, ⟨1, 1, 2, 2, 0⟩, ⟨2, 2, 2, 2, 0⟩, ⟨20, 0, 2, 2, 0⟩] : List Blob).getD 4 default)
        ∧ overlap_metric (([⟨0, 0, 2, 2, 0⟩, ⟨3, 3, 2, 2, 0⟩, ⟨1, 1, 2, 2, 0⟩, ⟨2, 2, 2, 2, 0⟩, ⟨20, 0, 2, 2, 0⟩] : List Blob).getD 2 default)
        (([⟨0, 0, 2, 2, 0⟩, ⟨3, 3, 2, 2, 0⟩, ⟨1, 1, 2, 2, 0⟩, ⟨2, 2, 2, 2, 0⟩, ⟨20, 0, 2, 2, 0⟩] : List Blob).getD 4 default) ≤ 1)
      = false := by
    refine decide_eq_false ?_
    intro hcon
    have hlt : min_merge_overlap 1 < overlap_metric ⟨1, 1, 2, 2, 0⟩ ⟨20, 0, 2, 2, 0⟩ := hcon.1
    rw [hm24] at hlt
    exact absurd hlt (not_lt.mpr min_merge_overlap_one_pos.le)
  have p34 : decide (min_merge_overlap 1 < overlap_metric
        (([⟨0, 0, 2, 2, 0⟩, ⟨3, 3, 2, 2, 0⟩, ⟨1, 1, 2, 2, 0⟩, ⟨2, 2, 2, 2, 0⟩, ⟨20, 0, 2, 2, 0⟩] : List Blob).getD 3 default)
        (([⟨0, 0, 2, 2, 0⟩, ⟨3, 3, 2, 2, 0⟩, ⟨1, 1, 2, 2, 0⟩, ⟨2, 2, 2, 2, 0⟩, ⟨20, 0, 2, 2, 0⟩] : List Blob).getD 4 default)
        ∧ overlap_metric (([⟨0, 0, 2, 2, 0⟩, ⟨3, 3, 2, 2, 0⟩, ⟨1, 1, 2, 2, 0⟩, ⟨2, 2, 2, 2, 0⟩, ⟨20, 0, 2, 2, 0⟩] : List Blob).getD 3 default)
        (([⟨0, 0, 2, 2, 0⟩, ⟨3, 3, 2, 2, 0⟩, ⟨1, 1, 2, 2, 0⟩, ⟨2, 2, 2, 2, 0⟩, ⟨20, 0, 2, 2, 0⟩] : List Blob).getD 4 default) ≤ 1)
      = false := by
    refine decide_eq_false ?_
    intro hcon
    have hlt : min_merge_overlap 1 < overlap_metric ⟨2, 2, 2, 2, 0⟩ ⟨20, 0, 2, 2, 0⟩ := hcon.1
    rw [hm34] at hlt
    exact absurd hlt (not_lt.mpr min_merge_overlap_one_pos.le)
  have hlen : ([⟨0, 0, 2, 2, 0⟩, ⟨3, 3, 2, 2, 0⟩, ⟨1, 1, 2, 2, 0⟩, ⟨2, 2, 2, 2, 0⟩, ⟨20, 0, 2, 2, 0⟩] : List Blob).length = 5 := rfl
  have hbandp : band_pairs 1 [⟨0, 0, 2, 2, 0⟩, ⟨3, 3, 2, 2, 0⟩, ⟨1, 1, 2, 2, 0⟩, ⟨2, 2, 2, 2, 0⟩, ⟨20, 0, 2, 2, 0⟩] = [(0, 2), (1, 3), (2, 3)] := by
    simp only [band_pairs, hlen, upperPairs_five, List.filter_cons, List.filter_nil,
      p01, p02, p03, p04, p12, p13, p14, p23, p24, p34]
    simp
  have hstep1 : mergeStep (([⟨0, 0, 2, 2, 0⟩, ⟨3, 3, 2, 2, 0⟩, ⟨1, 1, 2, 2, 0⟩, ⟨2, 2, 2, 2, 0⟩, ⟨20, 0, 2, 2, 0⟩] : List Blob),
      ([] : List Blob)) (0, 2)
      = ([⟨0, 0, -1, -1, 0⟩, ⟨3, 3, 2, 2, 0⟩, ⟨1, 1, -1, -1, 0⟩, ⟨2, 2, 2, 2, 0⟩, ⟨20, 0, 2, 2, 0⟩], [merge_to_ellipse ⟨0, 0, 2, 2, 0⟩ ⟨1, 1, 2, 2, 0⟩]) := by
    simp only [mergeStep]
    split_ifs with hcond
    · rfl
    · exact absurd ⟨rfl, by push_neg; exact ⟨rfl, rfl⟩⟩ hcond
  have hstep2 : mergeStep (([⟨0, 0, -1, -1, 0⟩, ⟨3, 3, 2, 2, 0⟩, ⟨1, 1, -1, -1, 0⟩, ⟨2, 2, 2, 2, 0⟩, ⟨20, 0, 2, 2, 0⟩] : List Blob),
      ([merge_to_ellipse ⟨0, 0, 2, 2, 0⟩ ⟨1, 1, 2, 2, 0⟩] : List Blob)) (1, 3)
      = ([⟨0, 0, -1, -1, 0⟩, ⟨3, 3, -1, -1, 0⟩, ⟨1, 1, -1, -1, 0⟩, ⟨2, 2, -1, -1, 0⟩, ⟨20, 0, 2, 2, 0⟩], [merge_to_ellipse ⟨0, 0, 2, 2, 0⟩ ⟨1, 1, 2, 2, 0⟩, merge_to_ellipse ⟨3, 3, 2, 2, 0⟩ ⟨2, 2, 2, 2, 0⟩]) := by
    simp only [mergeStep]
    split_ifs with hcond
    · rfl
    · exact absurd ⟨rfl, by push_neg; exact ⟨rfl, rfl⟩⟩ hcond
  have hstep3 : mergeStep (([⟨0, 0, -1, -1, 0⟩, ⟨3, 3, -1, -1, 0⟩, ⟨1, 1, -1, -1, 0⟩, ⟨2, 2, -1, -1, 0⟩, ⟨20, 0, 2, 2, 0⟩] : List Blob),
      ([merge_to_ellipse ⟨0, 0, 2, 2, 0⟩ ⟨1, 1, 2, 2, 0⟩, merge_to_ellipse ⟨3, 3, 2, 2, 0⟩ ⟨2, 2, 2, 2, 0⟩] : List Blob)) (2, 3)
      = ([⟨0, 0, -1, -1, 0⟩, ⟨3, 3, -1, -1, 0⟩, ⟨1, 1, -1, -1, 0⟩, ⟨2, 2, -1, -1, 0⟩, ⟨20, 0, 2, 2, 0⟩], [merge_to_ellipse ⟨0, 0, 2, 2, 0⟩ ⟨1, 1, 2, 2, 0⟩, merge_to_ellipse ⟨3, 3, 2, 2, 0⟩ ⟨2, 2, 2, 2, 0⟩, merge_to_ellipse ⟨1, 1, -1, -1, 0⟩ ⟨2, 2, -1, -1, 0⟩]) := by
    simp only [mergeStep]
    split_ifs with hcond
    · rfl
    · exact absurd ⟨rfl, by push_neg; exact ⟨rfl, rfl⟩⟩ hcond
  have hsurv : (([⟨0, 0, -1, -1, 0⟩, ⟨3, 3, -1, -1, 0⟩, ⟨1, 1, -1, -1, 0⟩, ⟨2, 2, -1, -1, 0⟩, ⟨20, 0, 2, 2, 0⟩] : List Blob).filter
      fun b => decide (0 < b.major)) = [⟨20, 0, 2, 2, 0⟩] := by
    simp only [List.filter_cons, List.filter_nil, decide_eq_true_eq]
    simp only [if_neg (show ¬(0 : ℝ) < -1 by norm_num),
      if_pos (show (0 : ℝ) < 2 by norm_num)]
  have hmerge : merge_blobs 1 ([⟨0, 0, 2, 2, 0⟩, ⟨3, 3, 2, 2, 0⟩, ⟨1, 1, 2, 2, 0⟩, ⟨2, 2, 2, 2, 0⟩, ⟨20, 0, 2, 2, 0⟩] : List Blob)
      = .ok ([⟨20, 0, 2, 2, 0⟩, merge_to_ellipse ⟨0, 0, 2, 2, 0⟩ ⟨1, 1, 2, 2, 0⟩, merge_to_ellipse ⟨3, 3, 2, 2, 0⟩ ⟨2, 2, 2, 2, 0⟩, merge_to_ellipse ⟨1, 1, -1, -1, 0⟩ ⟨2, 2, -1, -1, 0⟩] : List Blob) := by
    simp only [merge_blobs, hbandp, List.foldl_cons, List.foldl_nil, hstep1,
      hstep2, hstep3, hsurv]
    rw [if_neg (by simp)]
    simp
  have hsq2pos : (0 : ℝ) < Real.sqrt 2 := Real.sqrt_pos.mpr (by norm_num)
  have hell02 : (merge_to_ellipse ⟨0, 0, 2, 2, 0⟩ ⟨1, 1, 2, 2, 0⟩).major ≠ (merge_to_ellipse ⟨0, 0, 2, 2, 0⟩ ⟨1, 1, 2, 2, 0⟩).minor := by
    show (2 : ℝ) + blobDist (⟨0, 0, 2, 2, 0⟩ : Blob) ⟨1, 1, 2, 2, 0⟩ / 2 ≠ 2
    rw [hd02]
    intro hc
    linarith
  have hell13 : (merge_to_ellipse ⟨3, 3, 2, 2, 0⟩ ⟨2, 2, 2, 2, 0⟩).major ≠ (merge_to_ellipse ⟨3, 3, 2, 2, 0⟩ ⟨2, 2, 2, 2, 0⟩).minor := by
    show (2 : ℝ) + blobDist (⟨3, 3, 2, 2, 0⟩ : Blob) ⟨2, 2, 2, 2, 0⟩ / 2 ≠ 2
    rw [hd13]
    intro hc
    linarith
  have hdg : blobDist (⟨1, 1, -1, -1, 0⟩ : Blob) ⟨2, 2, -1, -1, 0⟩
      = Real.sqrt 2 := blobDist_eval_sqrt _ _ 2 (by norm_num)
  have hellg : (merge_to_ellipse ⟨1, 1, -1, -1, 0⟩ ⟨2, 2, -1, -1, 0⟩).major ≠ (merge_to_ellipse ⟨1, 1, -1, -1, 0⟩ ⟨2, 2, -1, -1, 0⟩).minor := by
    show (-1 : ℝ) + blobDist (⟨1, 1, -1, -1, 0⟩ : Blob) ⟨2, 2, -1, -1, 0⟩ / 2 ≠ -1
    rw [hdg]
    intro hc
    linarith
  have q01 : decide ((2 : ℝ) ≤ overlap_metric (([⟨20, 0, 2, 2, 0⟩, merge_to_ellipse ⟨0, 0, 2, 2, 0⟩ ⟨1, 1, 2, 2, 0⟩, merge_to_ellipse ⟨3, 3, 2, 2, 0⟩ ⟨2, 2, 2, 2, 0⟩, merge_to_ellipse ⟨1, 1, -1, -1, 0⟩ ⟨2, 2, -1, -1, 0⟩] : List Blob).getD 0 default) (([⟨20, 0, 2, 2, 0⟩, merge_to_ellipse ⟨0, 0, 2, 2, 0⟩ ⟨1, 1, 2, 2, 0⟩, merge_to_ellipse ⟨3, 3, 2, 2, 0⟩ ⟨2, 2, 2, 2, 0⟩, merge_to_ellipse ⟨1, 1, -1, -1, 0⟩ ⟨2, 2, -1, -1, 0⟩] : List Blob).getD 1 default)) = false := by
    refine decide_eq_false ?_
    intro hcon
    have hle : overlap_metric (⟨20, 0, 2, 2, 0⟩) (merge_to_ellipse ⟨0, 0, 2, 2, 0⟩ ⟨1, 1, 2, 2, 0⟩) ≤ 1 :=
      overlap_metric_le_one_of_noncircular _ _ (Or.inr hell02)
    have hge : (2 : ℝ) ≤ overlap_metric (⟨20, 0, 2, 2, 0⟩) (merge_to_ellipse ⟨0, 0, 2, 2, 0⟩ ⟨1, 1, 2, 2, 0⟩) := hcon
    linarith
  have q02 : decide ((2 : ℝ) ≤ overlap_metric (([⟨20, 0, 2, 2, 0⟩, merge_to_ellipse ⟨0, 0, 2, 2, 0⟩ ⟨1, 1, 2, 2, 0⟩, merge_to_ellipse ⟨3, 3, 2, 2, 0⟩ ⟨2, 2, 2, 2, 0⟩, merge_to_ellipse ⟨1, 1, -1, -1, 0⟩ ⟨2, 2, -1, -1, 0⟩] : List Blob).getD 0 default) (([⟨20, 0, 2, 2, 0⟩, merge_to_ellipse ⟨0, 0, 2, 2, 0⟩ ⟨1, 1, 2, 2, 0⟩, merge_to_ellipse ⟨3, 3, 2, 2, 0⟩ ⟨2, 2, 2, 2, 0⟩, merge_to_ellipse ⟨1, 1, -1, -1, 0⟩ ⟨2, 2, -1, -1, 0⟩] : List Blob).getD 2 default)) = false := by
    refine decide_eq_false ?_
    intro hcon
    have hle : overlap_metric (⟨20, 0, 2, 2, 0⟩) (merge_to_ellipse ⟨3, 3, 2, 2, 0⟩ ⟨2, 2, 2, 2, 0⟩) ≤ 1 :=
      overlap_metric_le_one_of_noncircular _ _ (Or.inr hell13)
    have hge : (2 : ℝ) ≤ overlap_metric (⟨20, 0, 2, 2, 0⟩) (merge_to_ellipse ⟨3, 3, 2, 2, 0⟩ ⟨2, 2, 2, 2, 0⟩) := hcon
    linarith
  have q03 : decide ((2 : ℝ) ≤ overlap_metric (([⟨20, 0, 2, 2, 0⟩, merge_to_ellipse ⟨0, 0, 2, 2, 0⟩ ⟨1, 1, 2, 2, 0⟩, merge_to_ellipse ⟨3, 3, 2, 2, 0⟩ ⟨2, 2, 2, 2, 0⟩, merge_to_ellipse ⟨1, 1, -1, -1, 0⟩ ⟨2, 2, -1, -1, 0⟩] : List Blob).getD 0 default) (([⟨20, 0, 2, 2, 0⟩, merge_to_ellipse ⟨0, 0, 2, 2, 0⟩ ⟨1, 1, 2, 2, 0⟩, merge_to_ellipse ⟨3, 3, 2, 2, 0⟩ ⟨2, 2, 2, 2, 0⟩, merge_to_ellipse ⟨1, 1, -1, -1, 0⟩ ⟨2, 2, -1, -1, 0⟩] : List Blob).getD 3 default)) = false := by
    refine decide_eq_false ?_
    intro hcon
    have hle : overlap_metric (⟨20, 0, 2, 2, 0⟩) (merge_to_ellipse ⟨1, 1, -1, -1, 0⟩ ⟨2, 2, -1, -1, 0⟩) ≤ 1 :=
      overlap_metric_le_one_of_noncircular _ _ (Or.inr hellg)
    have hge : (2 : ℝ) ≤ overlap_metric (⟨20, 0, 2, 2, 0⟩) (merge_to_ellipse ⟨1, 1, -1, -1, 0⟩ ⟨2, 2, -1, -1, 0⟩) := hcon
    linarith
  have q12 : decide ((2 : ℝ) ≤ overlap_metric (([⟨20, 0, 2, 2, 0⟩, merge_to_ellipse ⟨0, 0, 2, 2, 0⟩ ⟨1, 1, 2, 2, 0⟩, merge_to_ellipse ⟨3, 3, 2, 2, 0⟩ ⟨2, 2, 2, 2, 0⟩, merge_to_ellipse ⟨1, 1, -1, -1, 0⟩ ⟨2, 2, -1, -1, 0⟩] : List Blob).getD 1 default) (([⟨20, 0, 2, 2, 0⟩, merge_to_ellipse ⟨0, 0, 2, 2, 0⟩ ⟨1, 1, 2, 2, 0⟩, merge_to_ellipse ⟨3, 3, 2, 2, 0⟩ ⟨2, 2, 2, 2, 0⟩, merge_to_ellipse ⟨1, 1, -1, -1, 0⟩ ⟨2, 2, -1, -1, 0⟩] : List Blob).getD 2 default)) = false := by
    refine decide_eq_false ?_
    intro hcon
    have hle : overlap_metric (merge_to_ellipse ⟨0, 0, 2, 2, 0⟩ ⟨1, 1, 2, 2, 0⟩) (merge_to_ellipse ⟨3, 3, 2, 2, 0⟩ ⟨2, 2, 2, 2, 0⟩) ≤ 1 :=
      overlap_metric_le_one_of_noncircular _ _ (Or.inr hell13)
    have hge : (2 : ℝ) ≤ overlap_metric (merge_to_ellipse ⟨0, 0, 2, 2, 0⟩ ⟨1, 1, 2, 2, 0⟩) (merge_to_ellipse ⟨3, 3, 2, 2, 0⟩ ⟨2, 2, 2, 2, 0⟩) := hcon
    linarith
  have q13 : decide ((2 : ℝ) ≤ overlap_metric (([⟨20, 0, 2, 2, 0⟩, merge_to_ellipse ⟨0, 0, 2, 2, 0⟩ ⟨1, 1, 2, 2, 0⟩, merge_to_ellipse ⟨3, 3, 2, 2, 0⟩ ⟨2, 2, 2, 2, 0⟩, merge_to_ellipse ⟨1, 1, -1, -1, 0⟩ ⟨2, 2, -1, -1, 0⟩] : List Blob).getD 1 default) (([⟨20, 0, 2, 2, 0⟩, merge_to_ellipse ⟨0, 0, 2, 2, 0⟩ ⟨1, 1, 2, 2, 0⟩, merge_to_ellipse ⟨3, 3, 2, 2, 0⟩ ⟨2, 2, 2, 2, 0⟩, merge_to_ellipse ⟨1, 1, -1, -1, 0⟩ ⟨2, 2, -1, -1, 0⟩] : List Blob).getD 3 default)) = false := by
    refine decide_eq_false ?_
    intro hcon
    have hle : overlap_metric (merge_to_ellipse ⟨0, 0, 2, 2, 0⟩ ⟨1, 1, 2, 2, 0⟩) (merge_to_ellipse ⟨1, 1, -1, -1, 0⟩ ⟨2, 2, -1, -1, 0⟩) ≤ 1 :=
      overlap_metric_le_one_of_noncircular _ _ (Or.inr hellg)
    have hge : (2 : ℝ) ≤ overlap_metric (merge_to_ellipse ⟨0, 0, 2, 2, 0⟩ ⟨1, 1, 2, 2, 0⟩) (merge_to_ellipse ⟨1, 1, -1, -1, 0⟩ ⟨2, 2, -1, -1, 0⟩) := hcon
    linarith
  have q23 : decide ((2 : ℝ) ≤ overlap_metric (([⟨20, 0, 2, 2, 0⟩, merge_to_ellipse ⟨0, 0, 2, 2, 0⟩ ⟨1, 1, 2, 2, 0⟩, merge_to_ellipse ⟨3, 3, 2, 2, 0⟩ ⟨2, 2, 2, 2, 0⟩, merge_to_ellipse ⟨1, 1, -1, -1, 0⟩ ⟨2, 2, -1, -1, 0⟩] : List Blob).getD 2 default) (([⟨20, 0, 2, 2, 0⟩, merge_to_ellipse ⟨0, 0, 2, 2, 0⟩ ⟨1, 1, 2, 2, 0⟩, merge_to_ellipse ⟨3, 3, 2, 2, 0⟩ ⟨2, 2, 2, 2, 0⟩, merge_to_ellipse ⟨1, 1, -1, -1, 0⟩ ⟨2, 2, -1, -1, 0⟩] : List Blob).getD 3 default)) = false := by
    refine decide_eq_false ?_
    intro hcon
    have hle : overlap_metric (merge_to_ellipse ⟨3, 3, 2, 2, 0⟩ ⟨2, 2, 2, 2, 0⟩) (merge_to_ellipse ⟨1, 1, -1, -1, 0⟩ ⟨2, 2, -1, -1, 0⟩) ≤ 1 :=
      overlap_metric_le_one_of_noncircular _ _ (Or.inr hellg)
    have hge : (2 : ℝ) ≤ overlap_metric (merge_to_ellipse ⟨3, 3, 2, 2, 0⟩ ⟨2, 2, 2, 2, 0⟩) (merge_to_ellipse ⟨1, 1, -1, -1, 0⟩ ⟨2, 2, -1, -1, 0⟩) := hcon
    linarith
  have hlenf : ([⟨20, 0, 2, 2, 0⟩, merge_to_ellipse ⟨0, 0, 2, 2, 0⟩ ⟨1, 1, 2, 2, 0⟩, merge_to_ellipse ⟨3, 3, 2, 2, 0⟩ ⟨2, 2, 2, 2, 0⟩, merge_to_ellipse ⟨1, 1, -1, -1, 0⟩ ⟨2, 2, -1, -1, 0⟩] : List Blob).length = 4 := rfl
  have hop : over_pairs 2 ([⟨20, 0, 2, 2, 0⟩, merge_to_ellipse ⟨0, 0, 2, 2, 0⟩ ⟨1, 1, 2, 2, 0⟩, merge_to_ellipse ⟨3, 3, 2, 2, 0⟩ ⟨2, 2, 2, 2, 0⟩, merge_to_ellipse ⟨1, 1, -1, -1, 0⟩ ⟨2, 2, -1, -1, 0⟩] : List Blob) = [] := by
    simp only [over_pairs, hlenf, upperPairs_four, List.filter_cons,
      List.filter_nil, q01, q02, q03, q12, q13, q23]
    simp
  have hprune := prune_blobs_of_no_pairs 2 ([⟨20, 0, 2, 2, 0⟩, merge_to_ellipse ⟨0, 0, 2, 2, 0⟩ ⟨1, 1, 2, 2, 0⟩, merge_to_ellipse ⟨3, 3, 2, 2, 0⟩ ⟨2, 2, 2, 2, 0⟩, merge_to_ellipse ⟨1, 1, -1, -1, 0⟩ ⟨2, 2, -1, -1, 0⟩] : List Blob) hop
  constructor
  · simp only [blob_log_post, hmax]
    rw [if_neg (by simp)]
    rw [hmerge]
    simp only [hprune]
  · show (-1 : ℝ) < 0
    norm_num

/-- C9: when the scale-space maxima step yields zero candidates,
`blob_log` short-circuits and returns the empty detection list together
with the response stack, without raising; the guard is load-bearing,
because calling `_merge_blobs` on the empty list would fail (the final
`np.vstack` sees the shape-`(0,)` empty compaction and raises). -/
theorem C9_empty_short_circuit :
    (∀ (α : Type) (sigma_list : List ℝ) (overlap md : ℝ) (cube : α),
      blob_log_post sigma_list overlap md [] cube = .ok ([], cube))
    ∧ ∀ md : ℝ, ∃ e, merge_blobs md [] = .error e := by
  constructor
  · intro α sl ov md cube
    rfl
  · intro md
    exact ⟨_, rfl⟩

/-- C8: the configuration stage of `blob_log` fails (with a descriptive
error and no partial output, the error being raised before any
response-stack computation) exactly when either no explicit sigma list
is given and `scale_choice` is not one of the three named modes, or the
supplied weighting's length differs from the scale list's.  The
positivity hypotheses delimit the domain on which the total `Real.log`
model agrees with Python's partial `math.log`. -/
theorem C8_config_validation (sigma_list : Option (List ℝ))
    (scale_choice : String) (min_sigma max_sigma : ℝ) (num_sigma : ℕ)
    (sigma_ratio : ℝ) (weighting : Option (List ℝ))
    (hmin : 0 < min_sigma) (hmax : 0 < max_sigma) (hratio : 1 < sigma_ratio) :
    (∃ e, blob_log_config sigma_list scale_choice min_sigma max_sigma
        num_sigma sigma_ratio weighting = .error e)
    ↔ ((sigma_list = none ∧ scale_choice ≠ "log" ∧ scale_choice ≠ "linear"
          ∧ scale_choice ≠ "ratio")
      ∨ (∃ l w, blob_log_scales sigma_list scale_choice min_sigma max_sigma
            num_sigma sigma_ratio = .ok l ∧ weighting = some w
          ∧ w.length ≠ l.length)) := by
  have herrscales : (sigma_list = none ∧ scale_choice ≠ "log"
      ∧ scale_choice ≠ "linear" ∧ scale_choice ≠ "ratio") →
      blob_log_scales sigma_list scale_choice min_sigma max_sigma num_sigma
        sigma_ratio = .error ("scale_choice must be log, linear, or ratio.") := by
    intro hcon
    obtain ⟨hnone, h1, h2, h3⟩ := hcon
    rw [hnone]
    simp only [blob_log_scales, if_neg h1, if_neg h2, if_neg h3]
  constructor
  · rintro ⟨e, he⟩
    rcases hs : blob_log_scales sigma_list scale_choice min_sigma max_sigma
        num_sigma sigma_ratio with es | l
    · left
      cases sigma_list with
      | some l' => simp [blob_log_scales] at hs
      | none =>
        refine ⟨rfl, ?_, ?_, ?_⟩ <;> intro hc <;> rw [hc] at hs <;>
          simp [blob_log_scales] at hs
    · right
      simp only [blob_log_config, hs] at he
      cases weighting with
      | none =>
        exact absurd (show (Except.ok (l, List.replicate l.length 1) :
          Except String (List ℝ × List ℝ)) = .error e from he) (by simp)
      | some w =>
        refine ⟨l, w, rfl, rfl, ?_⟩
        intro hwl
        have he' : (if w.length ≠ l.length then
            (Except.error
              "IndexError: weighting must have the same number of elements as scales" :
              Except String (List ℝ × List ℝ))
          else .ok (l, w)) = .error e := he
        rw [if_neg (by omega : ¬w.length ≠ l.length)] at he'
        exact Except.noConfusion he'
  · rintro (hcon | ⟨l, w, hl, hw, hwl⟩)
    · refine ⟨("scale_choice must be log, linear, or ratio."), ?_⟩
      simp only [blob_log_config, herrscales hcon]
    · refine ⟨("IndexError: weighting must have the same number of elements as scales"), ?_⟩
      rw [hw]
      simp only [blob_log_config, hl, if_pos hwl]

/-- C8 witness: with no explicit sigma list, an unknown scale choice
errors; a valid linear configuration with a matching-length weighting
succeeds, and a mismatched weighting errors. -/
theorem C8_config_validation_witness :
    (0 : ℝ) < 1 ∧ (0 : ℝ) < 50 ∧ (1 : ℝ) < 2
    ∧ (∃ e, blob_log_config none "cubic" 1 50 10 2 none = .error e)
    ∧ (∃ e, blob_log_config (some [1, 2]) "linear" 1 50 10 2 (some [1, 1, 1])
      = .error e)
    ∧ blob_log_config (some [1, 2]) "linear" 1 50 10 2 (some [1, 1])
      = .ok ([1, 2], [1, 1]) := by
  refine ⟨by norm_num, by norm_num, by norm_num, ?_, ?_, ?_⟩
  · exact (C8_config_validation none "cubic" 1 50 10 2 none (by norm_num)
      (by norm_num) (by norm_num)).mpr
      (Or.inl ⟨rfl, by decide, by decide, by decide⟩)
  · exact (C8_config_validation (some [1, 2]) "linear" 1 50 10 2
      (some [1, 1, 1]) (by norm_num) (by norm_num) (by norm_num)).mpr
      (Or.inr ⟨[1, 2], [1, 1, 1], rfl, rfl, by simp⟩)
  · rfl
